import Mathlib

/-!
# Echo server: a shallow embedding of `cmd/*.go`

The Go program is a diagnostic server with four transports (HTTP, HTTPS, TCP echo,
UDP echo).  This development embeds

* `utils.go`   : `isValidPort`, `fileExists`, `folderExists`;
* `config.go`  : the `configuration` record and `configuration.init`;
* `logger.go`  : the `connection`, `packet` and `request` methods of the logger;
* `server.go`  : `handleTCPConnection`, `tcpEcho`, `udpEcho`, `handleFunctions`,
                 `stop` and the main task of `start`.

Everything the program does to the outside (log lines, socket writes, file removals,
channel operations) is recorded as a chronological list of `Event`s.  Everything the
outside does to the program (bytes arriving, system calls failing) is an explicit
argument: a script of results, consumed in order.
-/

namespace EchoServer

/-! ## Basic data -/

/-- One octet. -/
abbrev Byte := Fin 256

/-- A network error: its text, as `err.Error()` gives it (for the `*net.OpError` that
`Accept` or `ReadFromUDP` returns this names the operation, the network and the address,
as in `accept tcp [::]:7: use of closed network connection`), and whether it wraps
`net.ErrClosed`. -/
inductive NetError where
  | closed (msg : String)
  | other (msg : String)
  deriving DecidableEq, Repr

/-- The text of `err.Error()`. -/
def NetError.text : NetError → String
  | .closed msg => msg
  | .other msg => msg

/-- Result of `errors.Is(err, net.ErrClosed)`. -/
def NetError.isErrClosed : NetError → Bool
  | .closed _ => true
  | .other _ => false

/-- What `%s` prints for an error value that may be nil. -/
def errText : Option String → String
  | some e => e
  | none => "%!s(<nil>)"

/-- What `%s` prints for a network error value that may be nil. -/
def netErrText : Option NetError → String
  | some e => e.text
  | none => "%!s(<nil>)"

/-- Observable actions of the program, in program order. -/
inductive Event where
  /-- a line on `log.error` -/
  | logError (msg : String)
  /-- a line on `log.info` -/
  | logInfo (msg : String)
  /-- a line on `log.requestLogger` -/
  | logRequest (remoteAddr method proto url : String)
  /-- a line on `log.connLogger` -/
  | logConnection (opened : Bool) (addr : String)
  /-- a line on `log.packetLogger`; `data` is printed for reads only -/
  | logPacket (op network : String) (bytes : Nat) (data : Option (List Byte)) (addr : String)
  /-- `fmt.Printf` straight to standard output -/
  | stdout (msg : String)
  /-- `conn.Write(payload)` on a TCP connection -/
  | connWrite (payload : List Byte)
  /-- `conn.Close()` on a TCP connection -/
  | connClose
  /-- `udpConn.WriteTo(payload, addr)` -/
  | udpWriteTo (payload : List Byte) (addr : String)
  /-- `go s.handleTCPConnection(conn)` for the connection of this peer -/
  | goHandleTCPConnection (remoteAddr : String)
  /-- `log.error.Fatalf` ended the process with `os.Exit(1)` -/
  | osExit (code : Nat)
  /-- a value sent on `s.errors` -/
  | sendErrors (v : Option String)
  /-- `http.Server.Shutdown` of the plain server -/
  | httpShutdown
  /-- `http.Server.Shutdown` of the TLS server -/
  | httpsShutdown
  /-- `os.Remove(path)` -/
  | osRemove (path : String)
  /-- `s.udpConn.Close()` -/
  | udpConnClose
  /-- `s.tcpListener.Close()` -/
  | tcpListenerClose
  /-- `l.file.Close()` -/
  | logFileClose
  /-- `close(s.errors)` is called -/
  | closeErrors
  /-- `close(s.idle)` is called -/
  | closeIdle
  /-- a `go func()` started by `start` -/
  | goTask (name : String)
  /-- `http.Handle(pattern, ...)` -/
  | httpHandle (pattern : String)
  deriving DecidableEq, Repr

/-! ## logger.go -/

/-- The switches of `logger` that the server core consults. -/
structure logger where
  requestEnabled : Bool
  connEnabled : Bool
  packetEnabled : Bool
  deriving DecidableEq, Repr

/-- `logger.connection`. -/
def logger.connection (l : logger) (isOpen : Bool) (addr : String) : List Event :=
  if !l.connEnabled then []
  else if isOpen then [Event.logConnection true addr]
  else [Event.logConnection false addr]

/-- `logger.packet`: only a read prints its payload. -/
def logger.packet (l : logger) (op network : String) (bytes : Nat) (data : List Byte)
    (addr : String) : List Event :=
  if !l.packetEnabled then []
  else if op == "read" then [Event.logPacket op network bytes (some data) addr]
  else [Event.logPacket op network bytes none addr]

/-! ## Sockets as scripts -/

/-- Outcome of one `conn.Read(buf)`: the bytes the peer delivered and the error. -/
structure ReadRet where
  data : List Byte
  err : Option String
  deriving DecidableEq, Repr

/-- Outcome of one `Write`/`WriteTo`: the count and the error. -/
structure WriteRet where
  n : Nat
  err : Option String
  deriving DecidableEq, Repr

/-- A read copies the delivered bytes to the front of the buffer, at most `len(buf)` of
them; it returns the count `n` and the buffer afterwards. -/
def readInto (buf data : List Byte) : Nat × List Byte :=
  (min data.length buf.length, data.take buf.length ++ buf.drop data.length)

/-- Outcome of the next write: the head of the script, or a full successful write once the
script is used up. -/
def nextWrite (ws : List WriteRet) (payload : List Byte) : WriteRet :=
  match ws with
  | w :: _ => w
  | [] => { n := payload.length, err := none }

/-! ## server.go: the TCP connection handler -/

/-- The `for` loop of `handleTCPConnection`.  A used-up read script is end-of-stream:
`Read` returns `io.EOF`. -/
def handleTCPLoop (l : logger) (remoteAddr : String) :
    List ReadRet → List WriteRet → List Event
  | [], _ => [Event.logError ("net.Read() error: " ++ "EOF")]
  | r :: rs, ws =>
    let buf := List.replicate 1024 (0 : Byte)
    let (n, buf) := readInto buf r.data
    let err := r.err
    if err.isSome then
      [Event.logError ("net.Read() error: " ++ errText err)]
    else if n == 0 then
      []
    else
      let w := nextWrite ws (buf.take n)
      l.packet "read" "TCP" n (buf.take n) remoteAddr
        ++ [Event.connWrite (buf.take n)]
        ++ (if err.isSome then
              [Event.logError ("net.Write() error: " ++ errText w.err)]
            else
              l.packet "write" "TCP" w.n [] remoteAddr)
        ++ handleTCPLoop l remoteAddr rs ws.tail

/-- `appServer.handleTCPConnection`: the two deferred calls run last, in reverse order of
their `defer` statements. -/
def handleTCPConnection (l : logger) (remoteAddr : String) (reads : List ReadRet)
    (writes : List WriteRet) : List Event :=
  l.connection true remoteAddr
    ++ handleTCPLoop l remoteAddr reads writes
    ++ l.connection false remoteAddr
    ++ [Event.connClose]

/-- The payloads of the TCP writes of a trace, in order. -/
def tcpWrites : List Event → List (List Byte)
  | [] => []
  | Event.connWrite p :: es => p :: tcpWrites es
  | _ :: es => tcpWrites es

/-! ## server.go: the server record -/

/-- A socket handle held in a pointer field: `nil`, open, or closed. -/
inductive Sock where
  | unset
  | listening
  | closed
  deriving DecidableEq, Repr

/-- A channel held in a field: `nil`, made and open, or closed. -/
inductive Chan where
  | unmade
  | ready
  | closed
  deriving DecidableEq, Repr

/-- The part of `http.Server` the program touches. -/
structure httpServer where
  Addr : String
  inShutdown : Bool
  deriving DecidableEq, Repr

/-- The record `appServer`. -/
structure appServer where
  http : httpServer
  https : httpServer
  udpConn : Sock
  tcpListener : Sock
  udpClosed : Bool
  tcpClosed : Bool
  idle : Chan
  errors : Chan
  deriving DecidableEq, Repr

/-- How a receive loop stops being followed: it returned, `log.error.Fatalf` ended the
process, or the script of arrivals is used up and the loop is blocked in its read. -/
inductive LoopEnd where
  | returned
  | exited
  | waiting
  deriving DecidableEq, Repr

/-- Events of one iteration followed by the rest of a loop. -/
def andLater (es : List Event) (rest : List Event × LoopEnd) : List Event × LoopEnd :=
  (es ++ rest.1, rest.2)

/-! ## server.go: the UDP echo loop -/

/-- Outcome of one `ReadFromUDP(buf)`: the datagram, its source, and the error. -/
structure UDPRead where
  data : List Byte
  addr : String
  err : Option NetError
  deriving DecidableEq, Repr

/-- The `for` loop of `udpEcho`.  The buffer is allocated once, before the loop, and is
threaded through the iterations.  `udpClosed` is the value of `s.udpClosed` that the loop
reads. -/
def udpEchoLoop (l : logger) (udpClosed : Bool) :
    List UDPRead → List WriteRet → List Byte → List Event × LoopEnd
  | [], _, _ => ([], LoopEnd.waiting)
  | r :: rs, ws, buf =>
    let (n, buf) := readInto buf r.data
    let addr := r.addr
    let err := r.err
    let remoteAddr := addr
    if err.isSome then
      if (err.map NetError.isErrClosed) == some true then
        if udpClosed then
          ([], LoopEnd.returned)
        else
          ([Event.logError ("net.ReadFromUDP() error: " ++ netErrText err), Event.osExit 1],
            LoopEnd.exited)
      else
        andLater [Event.logError ("net.ReadFromUDP() error: " ++ netErrText err)]
          (udpEchoLoop l udpClosed rs ws buf)
    else if n > 0 then
      let w := nextWrite ws (buf.take n)
      andLater
        (l.packet "read" "UDP" n (buf.take n) remoteAddr
          ++ [Event.udpWriteTo (buf.take n) addr]
          ++ (if err.isSome then
                [Event.logError ("net.WriteTo() error: " ++ errText w.err)]
              else
                l.packet "write" "UDP" w.n [] remoteAddr))
        (udpEchoLoop l udpClosed rs ws.tail buf)
    else
      udpEchoLoop l udpClosed rs ws buf

/-- `appServer.udpEcho`.  `listenErr` is the error of `net.ListenUDP`, `localAddr` the
address it bound. -/
def appServer.udpEcho (s : appServer) (l : logger) (listenErr : Option NetError)
    (localAddr : String) (reads : List UDPRead) (writes : List WriteRet) :
    appServer × List Event × LoopEnd :=
  match listenErr with
  | some e =>
    ({ s with udpConn := Sock.unset },
      [Event.logError ("net.ListenUDP() error: " ++ e.text), Event.osExit 1], LoopEnd.exited)
  | none =>
    let s := { s with udpConn := Sock.listening }
    (s, andLater [Event.logInfo ("UDP echo server listening on " ++ localAddr)]
      (udpEchoLoop l s.udpClosed reads writes (List.replicate 4096 (0 : Byte))))

/-- The datagrams sent by a trace, each with its destination, in order. -/
def udpWrites : List Event → List (List Byte × String)
  | [] => []
  | Event.udpWriteTo p a :: es => (p, a) :: udpWrites es
  | _ :: es => udpWrites es

/-! ## server.go: the TCP accept loop -/

/-- Outcome of one `Accept()`: a connection (named by its peer) or an error. -/
inductive AcceptRet where
  | conn (remoteAddr : String)
  | fail (err : NetError)
  deriving DecidableEq, Repr

/-- The `for` loop of `tcpEcho`.  `tcpClosed` is the value of `s.tcpClosed` that the loop
reads.  The text of the fatal message is the one in the source. -/
def tcpEchoLoop (tcpClosed : Bool) : List AcceptRet → List Event × LoopEnd
  | [] => ([], LoopEnd.waiting)
  | AcceptRet.fail err :: rs =>
    if err.isErrClosed then
      if tcpClosed then
        ([], LoopEnd.returned)
      else
        ([Event.logError ("net.ReadFromUDP() error: " ++ err.text), Event.osExit 1],
          LoopEnd.exited)
    else
      andLater [Event.logError ("TCPListener.Accept() error: " ++ err.text)]
        (tcpEchoLoop tcpClosed rs)
  | AcceptRet.conn remoteAddr :: rs =>
    andLater [Event.goHandleTCPConnection remoteAddr] (tcpEchoLoop tcpClosed rs)

/-- `appServer.tcpEcho`.  `listenErr` is the error of `net.ListenTCP`, `localAddr` the
address it bound. -/
def appServer.tcpEcho (s : appServer) (listenErr : Option NetError) (localAddr : String)
    (accepts : List AcceptRet) : appServer × List Event × LoopEnd :=
  match listenErr with
  | some e =>
    ({ s with tcpListener := Sock.unset },
      [Event.logError ("net.ListenTCP() error: " ++ e.text)], LoopEnd.returned)
  | none =>
    let s := { s with tcpListener := Sock.listening }
    (s, andLater [Event.logInfo ("TCP echo server listening on " ++ localAddr)]
      (tcpEchoLoop s.tcpClosed accepts))

/-! ## utils.go -/

/-- Result of a Go call that either returns a value or panics at run time. -/
inductive Go (α : Type) where
  | ret (a : α)
  | panic (msg : String)
  deriving DecidableEq, Repr

/-- The kinds of `os.FileMode` that matter: a regular file, a directory, or anything else
(device, named pipe, socket). -/
inductive FileMode where
  | regular
  | dir
  | irregular
  deriving DecidableEq, Repr

/-- `FileInfo.IsDir()`. -/
def FileMode.IsDir : FileMode → Bool
  | .dir => true
  | _ => false

/-- An error of `os.Stat`: the path does not exist, or any other failure (permission
denied, a path component that is not a directory, ...). -/
inductive StatError where
  | notExist
  | failure (msg : String)
  deriving DecidableEq, Repr

/-- The pair `(info, err)` returned by `os.Stat`: file information with a nil error, or a
nil file information with an error. -/
inductive StatRet where
  | found (info : FileMode)
  | failed (err : StatError)
  deriving DecidableEq, Repr

/-- `os.IsNotExist(err)` on the error half of a `StatRet`. -/
def StatRet.IsNotExist : StatRet → Bool
  | .failed .notExist => true
  | _ => false

/-- `fileExists`: when `os.Stat` fails with an error that is not not-exist, `info` is nil
and `info.IsDir()` is a call on a nil interface value, which panics. -/
def fileExists (stat : String → StatRet) (fileName : String) : Go Bool :=
  let r := stat fileName
  if r.IsNotExist then
    Go.ret false
  else
    match r with
    | .found info => Go.ret (!info.IsDir)
    | .failed _ => Go.panic "runtime error: invalid memory address or nil pointer dereference"

/-- `folderExists`. -/
def folderExists (stat : String → StatRet) (folderName : String) : Bool :=
  !(stat folderName).IsNotExist

/-- `isValidPort`; Go's `int` is read as an integer. -/
def isValidPort (p : Int) : Bool :=
  if p < 0 || p > 65535 then
    false
  else
    true

/-! ## config.go -/

/-- A `net.TCPAddr` / `net.UDPAddr`: `IP` keeps the host text handed to `net.ParseIP`. -/
structure netAddr where
  IP : String
  Port : Int
  deriving DecidableEq, Repr

/-- Field `server` of `configuration`. -/
structure serverSection where
  host : String
  deriving DecidableEq, Repr

/-- Fields `udp` and `tcp` of `configuration`. -/
structure echoSection where
  enabled : Bool
  port : Int
  address : netAddr
  deriving DecidableEq, Repr

/-- Field `http` of `configuration`. -/
structure httpSection where
  enabled : Bool
  port : Int
  address : String
  deriving DecidableEq, Repr

/-- Field `https` of `configuration`. -/
structure httpsSection where
  enabled : Bool
  port : Int
  address : String
  cert : String
  key : String
  autoCert : Bool
  deriving DecidableEq, Repr

/-- Field `content` of `configuration`. -/
structure contentSection where
  content : String
  file : String
  contentType : String
  addContentType : Bool
  deriving DecidableEq, Repr

/-- Field `log` of `configuration`. -/
structure logSection where
  enabled : Bool
  dir : String
  requests : Bool
  connections : Bool
  packets : Bool
  deriving DecidableEq, Repr

/-- The record `configuration`. -/
structure configuration where
  server : serverSection
  udp : echoSection
  tcp : echoSection
  http : httpSection
  https : httpsSection
  content : contentSection
  log : logSection
  quiet : Bool
  deriving DecidableEq, Repr

/-- What `configuration.init` asks of the operating system and of `cert.go`:
`generateCert` is the triple returned by `generateCert()` (two paths, or an error). -/
structure OS where
  stat : String → StatRet
  generateCert : Except String (String × String)
  readFile : String → Except String String

/-- Calls that `configuration.init` makes, in order. -/
inductive InitCall where
  | generateCert
  | fileExists (path : String)
  | readFile (path : String)
  deriving DecidableEq, Repr

/-- The configuration as written so far (through the pointer receiver) and the calls made
so far. -/
structure InitState where
  c : configuration
  calls : List InitCall
  deriving DecidableEq, Repr

/-- One block of `init`: control either falls through to the next statement, or leaves
the function by returning an error, or by a run-time panic. -/
inductive InitStep where
  | next (st : InitState)
  | returnErr (st : InitState) (err : String)
  | panicked (st : InitState) (msg : String)
  deriving DecidableEq, Repr

/-- Sequencing of blocks. -/
def InitStep.andThen (s : InitStep) (f : InitState → InitStep) : InitStep :=
  match s with
  | .next st => f st
  | .returnErr st err => .returnErr st err
  | .panicked st msg => .panicked st msg

/-- How a call of `init` ends: `return nil`, `return err` with an error that is not nil,
or a run-time panic.  Each carries the configuration as written so far and the calls
made. -/
inductive InitRun where
  | returnedNil (st : InitState)
  | returnedErr (st : InitState) (err : String)
  | panicked (st : InitState) (msg : String)
  deriving DecidableEq, Repr

/-- The last statement, `return nil`, reached when every block fell through. -/
def InitStep.finish : InitStep → InitRun
  | .next st => .returnedNil st
  | .returnErr st err => .returnedErr st err
  | .panicked st msg => .panicked st msg

/-- `net.JoinHostPort`. -/
def JoinHostPort (host port : String) : String :=
  if ':' ∈ host.toList then "[" ++ host ++ "]:" ++ port else host ++ ":" ++ port

/-- `strconv.Itoa`. -/
def Itoa (i : Int) : String :=
  toString i

/-- Lines 62-64 of `config.go`: at least one transport. -/
def initAnyEnabled (st : InitState) : InitStep :=
  let c := st.c
  if !c.http.enabled && !c.https.enabled && !c.udp.enabled && !c.tcp.enabled then
    .returnErr st
      "one of the following options must be enabled: http, https, tcp echo, udp echo"
  else
    .next st

/-- Lines 66-72: the HTTP block. -/
def initHTTP (st : InitState) : InitStep :=
  let c := st.c
  if c.http.enabled then
    if !isValidPort c.http.port then
      .returnErr st ("invalid HTTP port number: " ++ toString c.http.port)
    else
      .next { st with c := { c with http := { c.http with
        address := JoinHostPort c.server.host (Itoa c.http.port) } } }
  else
    .next st

/-- Lines 90-94: the certificate path, in the branch where not both paths are empty. -/
def initCertFile (os : OS) (st : InitState) : InitStep :=
  let c := st.c
  if c.https.cert.length == 0 then
    .returnErr st
      "SSL certificate file must be specified"
  else
    let st := { st with calls := st.calls ++ [InitCall.fileExists c.https.cert] }
    match fileExists os.stat c.https.cert with
    | .panic msg => .panicked st msg
    | .ret found =>
      if !found then
        .returnErr st ("SSL certificate file specified but not found: " ++ c.https.cert)
      else
        .next st

/-- Lines 96-100: the key path, in the branch where not both paths are empty. -/
def initKeyFile (os : OS) (st : InitState) : InitStep :=
  let c := st.c
  if c.https.key.length == 0 then
    .returnErr st
      "RSA private key file must be specified"
  else
    let st := { st with calls := st.calls ++ [InitCall.fileExists c.https.key] }
    match fileExists os.stat c.https.key with
    | .panic msg => .panicked st msg
    | .ret found =>
      if !found then
        .returnErr st ("RSA private key file specified but not found: " ++ c.https.key)
      else
        .next st

/-- Lines 74-102: the HTTPS block. -/
def initHTTPS (os : OS) (st : InitState) : InitStep :=
  let c := st.c
  if c.https.enabled then
    if !isValidPort c.https.port then
      .returnErr st ("invalid HTTPS port number: " ++ toString c.https.port)
    else
      let c := { c with https := { c.https with
        address := JoinHostPort c.server.host (Itoa c.https.port) } }
      let st := { st with c := c }
      if c.https.cert.length == 0 && c.https.key.length == 0 then
        let st := { st with calls := st.calls ++ [InitCall.generateCert] }
        match os.generateCert with
        | .error err => .returnErr st err
        | .ok (cert, key) =>
          .next { st with c := { c with https := { c.https with
            autoCert := true, cert := cert, key := key } } }
      else
        (initCertFile os st).andThen (initKeyFile os)
  else
    .next st

/-- Lines 104-110: the TCP block. -/
def initTCP (st : InitState) : InitStep :=
  let c := st.c
  if c.tcp.enabled then
    if !isValidPort c.tcp.port then
      .returnErr st ("invalid TCP echo port number: " ++ toString c.tcp.port)
    else
      .next { st with c := { c with tcp := { c.tcp with
        address := { Port := c.tcp.port, IP := c.server.host } } } }
  else
    .next st

/-- Lines 112-118: the UDP block. -/
def initUDP (st : InitState) : InitStep :=
  let c := st.c
  if c.udp.enabled then
    if !isValidPort c.udp.port then
      .returnErr st ("invalid UDP echo port number: " ++ toString c.udp.port)
    else
      .next { st with c := { c with udp := { c.udp with
        address := { Port := c.udp.port, IP := c.server.host } } } }
  else
    .next st

/-- Lines 120-131: the content file. -/
def initContentFile (os : OS) (st : InitState) : InitStep :=
  let c := st.c
  if c.content.file.length > 0 then
    let st := { st with calls := st.calls ++ [InitCall.fileExists c.content.file] }
    match fileExists os.stat c.content.file with
    | .panic msg => .panicked st msg
    | .ret found =>
      if !found then
        .returnErr st ("content file specified but not found: " ++ c.content.file)
      else
        let st := { st with calls := st.calls ++ [InitCall.readFile c.content.file] }
        match os.readFile c.content.file with
        | .error err => .returnErr st err
        | .ok content =>
          .next { st with c := { c with content := { c.content with content := content } } }
  else
    .next st

/-- Lines 133-135: the content type. -/
def initContentType (st : InitState) : InitStep :=
  let c := st.c
  if c.content.contentType.length > 0 then
    .next { st with c := { c with content := { c.content with addContentType := true } } }
  else
    .next st

/-- `configuration.init`: the blocks in source order, then `return nil`. -/
def configuration.init (os : OS) (c : configuration) : InitRun :=
  (((((((initAnyEnabled { c := c, calls := [] }).andThen initHTTP).andThen
    (initHTTPS os)).andThen initTCP).andThen initUDP).andThen
    (initContentFile os)).andThen initContentType).finish

/-- The configuration and the calls when the call ended, whatever way it ended. -/
def InitRun.state : InitRun → InitState
  | .returnedNil st => st
  | .returnedErr st _ => st
  | .panicked st _ => st

/-- The configuration after the call. -/
def InitRun.cfg (r : InitRun) : configuration :=
  r.state.c

/-- The call returned an error that is not nil. -/
def InitRun.isError : InitRun → Bool
  | .returnedErr _ _ => true
  | _ => false

/-- The call returned nil. -/
def InitRun.isNil : InitRun → Bool
  | .returnedNil _ => true
  | _ => false

/-- The call panicked. -/
def InitRun.isPanic : InitRun → Bool
  | .panicked _ _ => true
  | _ => false

/-- The state a block ended in. -/
def InitStep.state : InitStep → InitState
  | .next st => st
  | .returnErr st _ => st
  | .panicked st _ => st

/-! ## server.go: the HTTP routes -/

/-- `[]byte(s)`: the octets of a Go string. -/
def bytesOf (s : String) : List Byte :=
  s.toUTF8.data.toList.map (fun b => b.val)

/-- An `http.Header`: keys with their lists of values. -/
abbrev Header := List (String × List String)

/-- `Header.Set`: the key now holds exactly this one value. -/
def Header.Set (h : Header) (key value : String) : Header :=
  (key, [value]) :: h.filter (fun kv => kv.1 != key)

/-- The values stored under a key, if the key is present. -/
def Header.values (h : Header) (key : String) : Option (List String) :=
  h.lookup key

/-- The part of `http.Request` the program reads. -/
structure Request where
  RemoteAddr : String
  Method : String
  Proto : String
  URL : String
  Header : Header
  deriving DecidableEq, Repr

/-- What a handler has done to its `http.ResponseWriter`: the header map it filled and the
octets it wrote. -/
structure ResponseWriter where
  header : Header
  body : List Byte
  deriving DecidableEq, Repr

/-- `w.Write(b)`. -/
def ResponseWriter.Write (w : ResponseWriter) (b : List Byte) : ResponseWriter :=
  { w with body := w.body ++ b }

/-- An `http.Handler`: it acts on the response writer and may log. -/
abbrev Handler := Request → ResponseWriter → ResponseWriter × List Event

/-- `logger.request`: the wrapper logs the request line when request logging is on, then
calls the wrapped handler. -/
def logger.request (l : logger) (next : Handler) : Handler :=
  if l.requestEnabled then
    fun req w =>
      let r := next req w
      (r.1, Event.logRequest req.RemoteAddr req.Method req.Proto req.URL :: r.2)
  else
    fun req w => next req w

/-- The function literal registered for the pattern `/`. -/
def rootHandler (c : configuration) : Handler :=
  fun _req w =>
    let w :=
      if c.content.addContentType then
        { w with header := w.header.Set "Content-Type" c.content.contentType }
      else
        w
    (w.Write (bytesOf c.content.content), [])

/-- The function literal registered for the pattern `/headers`; `marshal` stands for
`json.Marshal` on the request headers. -/
def headersHandler (marshal : Header → Except String String) : Handler :=
  fun req w =>
    let w := { w with header := w.header.Set "Content-Type" "application/json" }
    match marshal req.Header with
    | .error err =>
      (w.Write (bytesOf ("\x7b\"error\": \"" ++ err ++ "\"\x7d")),
        [Event.logError ("could not marshal request headers: " ++ err)])
    | .ok reqHeadersBytes => (w.Write (bytesOf reqHeadersBytes), [])

/-- `appServer.handleFunctions`: the registrations made on the default mux, in order. -/
def handleFunctions (c : configuration) (l : logger)
    (marshal : Header → Except String String) : List (String × Handler) :=
  [("/", l.request (rootHandler c)), ("/headers", l.request (headersHandler marshal))]

/-- The handler registered for a pattern. -/
def registered (routes : List (String × Handler)) (pattern : String) : Option Handler :=
  routes.lookup pattern

/-- A response writer nothing has been done to. -/
def ResponseWriter.fresh : ResponseWriter :=
  { header := [], body := [] }

/-! ## server.go: `stop` -/

/-- The state `stop` and `start` act on: the server record, the paths present on disk,
whether the log file handle is open, and the events so far. -/
structure World where
  srv : appServer
  files : List String
  logFileOpen : Bool
  trace : List Event
  deriving DecidableEq, Repr

/-- Append events to the trace. -/
def World.emit (w : World) (es : List Event) : World :=
  { w with trace := w.trace ++ es }

/-- What the outside answers during `stop`: the error of each `Shutdown` call, for a path
that is on disk the error `os.Remove` meets (permission denied, ...), if any, and the
texts of the errors that `Close` returns on a UDP socket, a TCP listener and a log file
that are closed already. -/
structure StopEnv where
  httpShutdownErr : Option String
  httpsShutdownErr : Option String
  removeErr : String → Option String
  udpCloseErr : String
  tcpCloseErr : String
  logCloseErr : String

/-- `os.Remove(path)`: the new state and the error returned. -/
def World.Remove (env : StopEnv) (w : World) (path : String) : World × Option String :=
  let w := w.emit [Event.osRemove path]
  if path ∈ w.files then
    match env.removeErr path with
    | some err => (w, some err)
    | none => ({ w with files := w.files.filter (fun f => f != path) }, none)
  else
    (w, some ("remove " ++ path ++ ": no such file or directory"))

/-- Lines 82-89 of `server.go`. -/
def stopHTTP (env : StopEnv) (c : configuration) (w : World) : World :=
  if c.http.enabled then
    let w := { w.emit [Event.httpShutdown] with
      srv := { w.srv with http := { w.srv.http with inShutdown := true } } }
    match env.httpShutdownErr with
    | some err => w.emit [Event.logError ("HTTP server shutdown: " ++ err)]
    | none => w.emit [Event.logInfo "HTTP server shutdown"]
  else
    w

/-- One `if err := os.Remove(path); err != nil` statement with its log line; `what` is
"cert" or "key". -/
def removeLogged (env : StopEnv) (w : World) (path what : String) : World :=
  let r := w.Remove env path
  match r.2 with
  | some err => r.1.emit [Event.logError ("error while removing " ++ what ++ " file: " ++ err)]
  | none => r.1

/-- Lines 99-107: removal of the generated certificate, then of the generated key. -/
def stopAutoCert (env : StopEnv) (c : configuration) (w : World) : World :=
  if c.https.autoCert then
    let w := removeLogged env w c.https.cert "cert"
    removeLogged env w c.https.key "key"
  else
    w

/-- Lines 92-97: `s.https.Shutdown` and the log line for its result. -/
def shutdownHTTPS (env : StopEnv) (w : World) : World :=
  let w := { w.emit [Event.httpsShutdown] with
    srv := { w.srv with https := { w.srv.https with inShutdown := true } } }
  match env.httpsShutdownErr with
  | some err => w.emit [Event.logError ("HTTPS server shutdown: " ++ err)]
  | none => w.emit [Event.logInfo "HTTPS server shutdown"]

/-- Lines 91-108: the HTTPS block. -/
def stopHTTPS (env : StopEnv) (c : configuration) (w : World) : World :=
  if c.https.enabled then
    stopAutoCert env c (shutdownHTTPS env w)
  else
    w

/-- Lines 110-117.  `Close` is a method promoted from the struct embedded in `UDPConn`, so
calling it through a nil `*UDPConn` takes the address of a field of a nil pointer, which
panics; on a closed socket it returns the closed-connection error. -/
def stopUDP (env : StopEnv) (c : configuration) (w : World) : World × Go Unit :=
  if c.udp.enabled then
    let w := w.emit [Event.logInfo "UDP echo server shutdown"]
    let w := { w with srv := { w.srv with udpClosed := true } }
    match w.srv.udpConn with
    | .unset =>
      (w, Go.panic "runtime error: invalid memory address or nil pointer dereference")
    | .listening =>
      ({ w.emit [Event.udpConnClose] with srv := { w.srv with udpConn := Sock.closed } },
        Go.ret ())
    | .closed =>
      (w.emit [Event.udpConnClose,
        Event.logError ("udpConn.Close() error: " ++ env.udpCloseErr)], Go.ret ())
  else
    (w, Go.ret ())

/-- Lines 119-126.  `TCPListener.Close` checks its own receiver: on a nil listener it
returns `EINVAL`. -/
def stopTCP (env : StopEnv) (c : configuration) (w : World) : World :=
  if c.tcp.enabled then
    let w := w.emit [Event.logInfo "TCP echo server shutdown"]
    let w := { w with srv := { w.srv with tcpClosed := true } }
    match w.srv.tcpListener with
    | .unset =>
      w.emit [Event.tcpListenerClose, Event.logError "TCPListener.Close() error: invalid argument"]
    | .listening =>
      { w.emit [Event.tcpListenerClose] with srv := { w.srv with tcpListener := Sock.closed } }
    | .closed =>
      w.emit [Event.tcpListenerClose,
        Event.logError ("TCPListener.Close() error: " ++ env.tcpCloseErr)]
  else
    w

/-- Lines 128-130 with `logger.close`: a failure to close the log file goes to standard
output. -/
def stopLog (env : StopEnv) (c : configuration) (w : World) : World :=
  if c.log.enabled then
    if w.logFileOpen then
      { w.emit [Event.logFileClose] with logFileOpen := false }
    else
      w.emit [Event.logFileClose,
        Event.stdout ("error while closing log file: " ++ env.logCloseErr)]
  else
    w

/-- The built-in `close` on a channel: closing a closed or nil channel panics. -/
def Chan.close : Chan → Go Chan
  | .ready => Go.ret Chan.closed
  | .closed => Go.panic "close of closed channel"
  | .unmade => Go.panic "close of nil channel"

/-- Lines 132-133: `close(s.errors)` then `close(s.idle)`.  Each call is recorded when it
is made; a call that panics ends `stop` there. -/
def stopChannels (w : World) : World × Go Unit :=
  let w := w.emit [Event.closeErrors]
  match w.srv.errors.close with
  | .panic msg => (w, Go.panic msg)
  | .ret ch =>
    let w := { w with srv := { w.srv with errors := ch } }
    let w := w.emit [Event.closeIdle]
    match w.srv.idle.close with
    | .panic msg => (w, Go.panic msg)
    | .ret ch => ({ w with srv := { w.srv with idle := ch } }, Go.ret ())

/-- `appServer.stop`: the state when the call ended, and whether it returned or panicked. -/
def appServer.stop (env : StopEnv) (c : configuration) (w : World) : World × Go Unit :=
  let w := stopHTTP env c w
  let w := stopHTTPS env c w
  let r := stopUDP env c w
  match r.2 with
  | .panic msg => (r.1, Go.panic msg)
  | .ret _ =>
    let w := stopTCP env c r.1
    let w := stopLog env c w
    stopChannels w

/-- Two calls of `stop` in sequence: the second runs only if the first returned. -/
def stopTwice (env : StopEnv) (c : configuration) (w : World) : World × Go Unit :=
  let r := appServer.stop env c w
  match r.2 with
  | .panic msg => (r.1, Go.panic msg)
  | .ret _ => appServer.stop env c r.1

/-! ## server.go: `start` -/

/-- Lines 26-74: the channels are made, the routes registered, one task started per
enabled transport, and the task that waits for the interrupt. -/
def startSetup (c : configuration) (w : World) : World :=
  let w := { w with srv := { w.srv with errors := Chan.ready, idle := Chan.ready } }
  let w :=
    if c.http.enabled || c.https.enabled then
      w.emit [Event.httpHandle "/", Event.httpHandle "/headers"]
    else
      w
  let w :=
    if c.http.enabled then
      { w.emit [Event.goTask "http"] with
        srv := { w.srv with http := { Addr := c.http.address, inShutdown := false } } }
    else
      w
  let w :=
    if c.https.enabled then
      { w.emit [Event.goTask "https"] with
        srv := { w.srv with https := { Addr := c.https.address, inShutdown := false } } }
    else
      w
  let w := if c.tcp.enabled then w.emit [Event.goTask "tcpEcho"] else w
  let w := if c.udp.enabled then w.emit [Event.goTask "udpEcho"] else w
  w.emit [Event.goTask "sigint"]

/-- The body of the HTTP task (lines 40-41): `ListenAndServe` always returns an error
that is not nil, and the task sends it on `s.errors`. -/
def httpTask (c : configuration) (serveErr : String) : List Event :=
  [Event.logInfo ("HTTP server listening on " ++ c.http.address),
    Event.sendErrors (some serveErr)]

/-- The body of the HTTPS task (lines 52-53). -/
def httpsTask (c : configuration) (serveErr : String) : List Event :=
  [Event.logInfo ("HTTPS server listening on " ++ c.https.address),
    Event.sendErrors (some serveErr)]

/-- What `Println` prints for an error value that may be nil. -/
def printlnText : Option String → String
  | some e => e
  | none => "<nil>"

/-- Whether the main task got past its last receive. -/
inductive MainEnd where
  | returned
  | waitingOnIdle
  deriving DecidableEq, Repr

/-- Lines 76-78: `received` is the value the main task receives from `s.errors` (nil also
when the channel was closed).  It is printed on the error log; then the task receives from
`s.idle`, which completes only once that channel is closed. -/
def startWait (w : World) (received : Option String) : World × MainEnd :=
  let w := w.emit [Event.logError (printlnText received)]
  if w.srv.idle == Chan.closed then
    (w, MainEnd.returned)
  else
    (w, MainEnd.waitingOnIdle)

/-- The main task of `appServer.start`, up to its wait on `s.idle`. -/
def appServer.start (c : configuration) (w : World) (received : Option String) :
    World × MainEnd :=
  startWait (startSetup c w) received

/-- Every enabled transport has been closed. -/
def transportsClosed (c : configuration) (s : appServer) : Bool :=
  (!c.http.enabled || s.http.inShutdown) && (!c.https.enabled || s.https.inShutdown)
    && (!c.udp.enabled || s.udpConn == Sock.closed)
    && (!c.tcp.enabled || s.tcpListener == Sock.closed)


/-! ## Reference behaviour and sample inputs -/

/-- A logger with every switch on. -/
def sampleLogger : logger :=
  { requestEnabled := true, connEnabled := true, packetEnabled := true }

/-- A server record after `start` has made its channels and both echo sockets are open. -/
def sampleServer : appServer :=
  { http := { Addr := "", inShutdown := false }, https := { Addr := "", inShutdown := false },
    udpConn := Sock.listening, tcpListener := Sock.listening, udpClosed := false,
    tcpClosed := false, idle := Chan.ready, errors := Chan.ready }

/-- What the UDP loop is to send for one read: nothing on an error or an empty datagram,
otherwise the first 4096 octets of the datagram, to its source. -/
def udpExpected (r : UDPRead) : Option (List Byte × String) :=
  if r.err.isSome then none
  else if r.data.length = 0 then none
  else some (r.data.take 4096, r.addr)

/-- A datagram of 4097 zero octets from `10.0.0.9:4000`, read without error. -/
def longDatagram : UDPRead :=
  { data := List.replicate 4097 0, addr := "10.0.0.9:4000", err := none }

/-- The values sent on `s.errors` in a trace, in order. -/
def sentOnErrors : List Event → List (Option String)
  | [] => []
  | Event.sendErrors v :: es => v :: sentOnErrors es
  | _ :: es => sentOnErrors es

/-- The configuration the command-line flags produce when none is given (`root.go`):
every transport off, the default ports, body and content type. -/
def defaultConfig : configuration :=
  { server := { host := "" },
    udp := { enabled := false, port := 0, address := { IP := "", Port := 0 } },
    tcp := { enabled := false, port := 0, address := { IP := "", Port := 0 } },
    http := { enabled := false, port := 80, address := "" },
    https := { enabled := false, port := 443, address := "", cert := "", key := "",
               autoCert := false },
    content := { content := "ok", file := "", contentType := "text/plain; charset=UTF-8",
                 addContentType := false },
    log := { enabled := false, dir := "log", requests := true, connections := true,
             packets := true },
    quiet := false }

/-- HTTP and TCP echo enabled. -/
def httpTcpConfig : configuration :=
  { defaultConfig with
    http := { enabled := true, port := 80, address := ":80" },
    tcp := { enabled := true, port := 7, address := { IP := "", Port := 7 } } }

/-- HTTPS enabled with a generated certificate and key, as `init` leaves it. -/
def autoCertConfig : configuration :=
  { defaultConfig with
    https := { enabled := true, port := 443, address := ":443", cert := "/tmp/server_crt_1",
               key := "/tmp/server_key_1", autoCert := true } }

/-- A server record before `start`: no socket, no channel. -/
def zeroServer : appServer :=
  { http := { Addr := "", inShutdown := false }, https := { Addr := "", inShutdown := false },
    udpConn := Sock.unset, tcpListener := Sock.unset, udpClosed := false,
    tcpClosed := false, idle := Chan.unmade, errors := Chan.unmade }

/-- The state at the call of `start`, with the generated certificate and key on disk. -/
def zeroWorld : World :=
  { srv := zeroServer, files := ["/tmp/server_crt_1", "/tmp/server_key_1"],
    logFileOpen := false, trace := [] }

/-- The state once `start` has made its channels and the echo sockets are open. -/
def runningWorld : World :=
  { srv := sampleServer, files := ["/tmp/server_crt_1", "/tmp/server_key_1"],
    logFileOpen := false, trace := [] }

/-- The state in which the main task of `start` receives the bind error of the HTTP task:
`start` has made the channels and started the tasks from `zeroWorld`, the TCP task has
bound its listener and waits in `Accept`, and the HTTP task has sent its error. -/
def listenerFailureWorld : World :=
  let w := startSetup httpTcpConfig zeroWorld
  let t := w.srv.tcpEcho none "[::]:7" []
  { w with
    srv := t.1,
    trace := w.trace ++ t.2.1
      ++ httpTask httpTcpConfig "listen tcp :80: bind: address already in use" }

/-- Every call made during `stop` succeeds. -/
def quietEnv : StopEnv :=
  { httpShutdownErr := none, httpsShutdownErr := none, removeErr := fun _ => none,
    udpCloseErr := "close udp [::]:7: use of closed network connection",
    tcpCloseErr := "close tcp [::]:7: use of closed network connection",
    logCloseErr := "close log/2026_11_2.log: file already closed" }

/-- The HTTPS shutdown fails and the certificate cannot be removed. -/
def failingEnv : StopEnv :=
  { httpShutdownErr := none, httpsShutdownErr := some "context deadline exceeded",
    removeErr := fun p => if p == "/tmp/server_crt_1" then some "permission denied" else none,
    udpCloseErr := "close udp [::]:7: use of closed network connection",
    tcpCloseErr := "close tcp [::]:7: use of closed network connection",
    logCloseErr := "close log/2026_11_2.log: file already closed" }

/-- An operating system in which no path exists and certificate generation succeeds. -/
def quietOS : OS :=
  { stat := fun _ => StatRet.failed StatError.notExist,
    generateCert := Except.ok ("/tmp/server_crt_1", "/tmp/server_key_1"),
    readFile := fun _ => Except.error "no such file or directory" }

/-- HTTP enabled, with the body "pong" and the content type "text/plain". -/
def pongConfig : configuration :=
  { defaultConfig with
    http := { enabled := true, port := 8080, address := "" },
    content := { content := "pong", file := "", contentType := "text/plain",
                 addContentType := false } }

/-- A `GET /` request. -/
def sampleRequest : Request :=
  { RemoteAddr := "10.0.0.1:5000", Method := "GET", Proto := "HTTP/1.1", URL := "/",
    Header := [] }

/-- `os.Stat` succeeds on the path and reports something that is not a directory. -/
def statIsFile (os : OS) (path : String) : Bool :=
  match os.stat path with
  | .found info => !info.IsDir
  | .failed _ => false

/-- `os.Stat` fails on the path with an error other than not-exist. -/
def statFails (os : OS) (path : String) : Bool :=
  match os.stat path with
  | .failed (.failure _) => true
  | _ => false

/-- The number of calls of `generateCert` among the calls made. -/
def generateCertCalls (calls : List InitCall) : Nat :=
  calls.count InitCall.generateCert

/-- The blocks of `init` after the HTTPS block, then `return nil`. -/
def initAfterHTTPS (os : OS) (s : InitStep) : InitRun :=
  ((((s.andThen initTCP).andThen initUDP).andThen (initContentFile os)).andThen
    initContentType).finish

/-- HTTPS enabled on the default port, no certificate or key configured. -/
def httpsConfig : configuration :=
  { defaultConfig with
    https := { enabled := true, port := 443, address := "", cert := "", key := "",
               autoCert := false } }

/-- HTTPS enabled with the certificate and key paths pointing at character devices. -/
def deviceCertConfig : configuration :=
  { defaultConfig with
    https := { enabled := true, port := 443, address := "", cert := "/dev/null",
               key := "/dev/zero", autoCert := false } }

/-- An operating system in which the two device paths exist as character devices and
nothing else exists. -/
def deviceOS : OS :=
  { stat := fun p =>
      if p == "/dev/null" || p == "/dev/zero" then StatRet.found FileMode.irregular
      else StatRet.failed StatError.notExist,
    generateCert := Except.error "not called",
    readFile := fun _ => Except.error "no such file or directory" }

/-- HTTPS enabled with a certificate path below a regular file and no key path. -/
def certOnlyConfig : configuration :=
  { defaultConfig with
    https := { enabled := true, port := 443, address := "", cert := "/etc/passwd/server.crt",
               key := "", autoCert := false } }

/-- HTTPS enabled with a certificate path below a regular file, and TCP echo enabled on
the port 70000. -/
def badPortConfig : configuration :=
  { defaultConfig with
    https := { enabled := true, port := 443, address := "", cert := "/etc/passwd/server.crt",
               key := "/etc/ssl/server.key", autoCert := false },
    tcp := { enabled := true, port := 70000, address := { IP := "", Port := 0 } } }

/-- An operating system in which `/etc/passwd` is a regular file, so that `os.Stat` of a
path below it fails with "not a directory", which is not a not-exist error. -/
def notDirOS : OS :=
  { stat := fun p =>
      if p == "/etc/passwd/server.crt" then
        StatRet.failed (StatError.failure "stat /etc/passwd/server.crt: not a directory")
      else if p == "/etc/passwd" || p == "/etc/ssl/server.key" then
        StatRet.found FileMode.regular
      else StatRet.failed StatError.notExist,
    generateCert := Except.error "not called",
    readFile := fun _ => Except.error "no such file or directory" }

/-- The state a block ended in is a run-time panic. -/
def InitStep.isPanic : InitStep → Bool
  | .panicked _ _ => true
  | _ => false

/-- An operating system in which the directory `/root/secret` cannot be searched, so that
`os.Stat` of a path below it fails with "permission denied", which is not a not-exist
error; `/etc/ssl/server.crt` is a regular file and nothing else exists. -/
def deniedOS : OS :=
  { stat := fun p =>
      if p == "/root/secret/body.txt" then
        StatRet.failed (StatError.failure "stat /root/secret/body.txt: permission denied")
      else if p == "/root/secret/server.key" then
        StatRet.failed (StatError.failure "stat /root/secret/server.key: permission denied")
      else if p == "/etc/ssl/server.crt" then StatRet.found FileMode.regular
      else StatRet.failed StatError.notExist,
    generateCert := Except.error "not called",
    readFile := fun _ => Except.error "permission denied" }

/-- HTTP enabled, with the response body to be read from a file in `/root/secret`. -/
def contentFileConfig : configuration :=
  { defaultConfig with
    http := { enabled := true, port := 8080, address := "" },
    content := { content := "ok", file := "/root/secret/body.txt",
                 contentType := "text/plain; charset=UTF-8", addContentType := false } }

/-- HTTPS enabled with an existing certificate file and a key path in `/root/secret`. -/
def keyDeniedConfig : configuration :=
  { defaultConfig with
    https := { enabled := true, port := 443, address := "", cert := "/etc/ssl/server.crt",
               key := "/root/secret/server.key", autoCert := false } }

/-- The body of the task that waits for the interrupt (lines 70-74), once the signal has
arrived: it calls `s.stop()`. -/
def sigintTask (env : StopEnv) (c : configuration) (w : World) : World × Go Unit :=
  appServer.stop env c w

/-- The events that are steps of the stop procedure: the two `Shutdown` calls, the
removals, the three `Close` calls and the two channel closes. -/
def Event.isStopStep : Event → Bool
  | .httpShutdown => true
  | .httpsShutdown => true
  | .osRemove _ => true
  | .udpConnClose => true
  | .tcpListenerClose => true
  | .logFileClose => true
  | .closeErrors => true
  | .closeIdle => true
  | _ => false

/-- The steps of the stop procedure in a trace, in order. -/
def stopSteps (es : List Event) : List Event :=
  es.filter Event.isStopStep

/-- The steps that one call of `stop` is to make before it closes the channels, by
configuration: HTTP, then HTTPS with the removal of a generated pair, then UDP, then TCP,
then the log file. -/
def transportPlan (c : configuration) : List Event :=
  (if c.http.enabled then [Event.httpShutdown] else [])
    ++ (if c.https.enabled then
          Event.httpsShutdown ::
            (if c.https.autoCert then
              [Event.osRemove c.https.cert, Event.osRemove c.https.key]
            else [])
        else [])
    ++ (if c.udp.enabled then [Event.udpConnClose] else [])
    ++ (if c.tcp.enabled then [Event.tcpListenerClose] else [])
    ++ (if c.log.enabled then [Event.logFileClose] else [])

/-- What the accept loop is to emit for one result of `Accept` that does not end it: the
start of a handler for a connection, an error line for a failure. -/
def acceptEvents : AcceptRet → List Event
  | .conn remoteAddr => [Event.goHandleTCPConnection remoteAddr]
  | .fail err => [Event.logError ("TCPListener.Accept() error: " ++ err.text)]

/-- The result of `Accept` is a failure with the closed-socket error. -/
def AcceptRet.socketClosed : AcceptRet → Bool
  | .conn _ => false
  | .fail err => err.isErrClosed

/-- The result of `ReadFromUDP` is a failure with the closed-socket error. -/
def UDPRead.socketClosed (r : UDPRead) : Bool :=
  (r.err.map NetError.isErrClosed) == some true

/-- The write script and the buffer that the UDP loop holds after a run of reads none of
which ended it. -/
def udpAfter : List UDPRead → List WriteRet → List Byte → List WriteRet × List Byte
  | [], ws, buf => (ws, buf)
  | r :: rs, ws, buf =>
    if r.err.isSome then udpAfter rs ws (readInto buf r.data).2
    else if (readInto buf r.data).1 > 0 then udpAfter rs ws.tail (readInto buf r.data).2
    else udpAfter rs ws (readInto buf r.data).2

/-- `Accept` fails because the listener has been closed. -/
def closedAccept : AcceptRet :=
  AcceptRet.fail (NetError.closed "accept tcp [::]:7: use of closed network connection")

/-- `ReadFromUDP` fails because the socket has been closed. -/
def closedRead : UDPRead :=
  { data := [], addr := "", err := some (NetError.closed
      "read udp [::]:7: use of closed network connection") }

/-- An accepted connection, then an `Accept` that fails for lack of file descriptors. -/
def sampleAccepts : List AcceptRet :=
  [AcceptRet.conn "10.0.0.1:5000",
    AcceptRet.fail (NetError.other "accept tcp [::]:7: accept4: too many open files")]

/-- A datagram of two octets, an empty one, and a read that fails with a timeout. -/
def sampleReads : List UDPRead :=
  [{ data := [7, 9], addr := "10.0.0.9:4000", err := none },
    { data := [], addr := "10.0.0.9:4001", err := none },
    { data := [], addr := "", err := some (NetError.other "read udp [::]:7: i/o timeout") }]

/-- The state after the transport blocks of `stop` (lines 82-130), before the channels
are closed, in a run where the UDP block does not panic. -/
def stopBlocks (env : StopEnv) (c : configuration) (w : World) : World :=
  stopLog env c (stopTCP env c (stopUDP env c (stopHTTPS env c (stopHTTP env c w))).1)

/-! ## Facts about traces -/

theorem tcpWrites_append (xs ys : List Event) :
    tcpWrites (xs ++ ys) = tcpWrites xs ++ tcpWrites ys := by
  induction xs with
  | nil => rfl
  | cons e es ih => cases e <;> simp [tcpWrites, ih]

theorem tcpWrites_connection (l : logger) (b : Bool) (a : String) :
    tcpWrites (l.connection b a) = [] := by
  unfold logger.connection
  split
  · rfl
  · split <;> rfl

theorem tcpWrites_packet (l : logger) (op net : String) (n : Nat) (d : List Byte) (a : String) :
    tcpWrites (l.packet op net n d a) = [] := by
  unfold logger.packet
  split
  · rfl
  · split <;> rfl

theorem readInto_fits (buf data : List Byte) (h : data.length ≤ buf.length) :
    (readInto buf data).1 = data.length ∧
      (readInto buf data).2.take (readInto buf data).1 = data := by
  simp [readInto, h, List.take_of_length_le h, List.take_append_eq_append_take]

theorem handleTCPLoop_stops (l : logger) (a : String) (tail : List ReadRet)
    (ws : List WriteRet) (hend : ∀ r, tail.head? = some r → r.err.isSome = true) :
    tcpWrites (handleTCPLoop l a tail ws) = [] := by
  cases tail with
  | nil => simp [handleTCPLoop, tcpWrites]
  | cons r rs =>
    have h := hend r rfl
    simp only [handleTCPLoop, h, if_true, tcpWrites]

theorem handleTCPLoop_writes (l : logger) (a : String) (chunks : List (List Byte))
    (tail : List ReadRet)
    (hsize : ∀ r ∈ chunks, 1 ≤ r.length ∧ r.length ≤ 1024)
    (hend : ∀ r, tail.head? = some r → r.err.isSome = true) (ws : List WriteRet) :
    tcpWrites (handleTCPLoop l a (chunks.map (fun r => { data := r, err := none }) ++ tail) ws)
      = chunks := by
  induction chunks generalizing ws with
  | nil => simpa using handleTCPLoop_stops l a tail ws hend
  | cons r rs ih =>
    have hr := hsize r (List.mem_cons_self _ _)
    have hfit : r.length ≤ (List.replicate 1024 (0 : Byte)).length := by
      rw [List.length_replicate]; exact hr.2
    obtain ⟨hn, htake⟩ := readInto_fits (List.replicate 1024 (0 : Byte)) r hfit
    have hrest := ih (fun x hx => hsize x (List.mem_cons_of_mem _ hx)) ws.tail
    have hn0 : (readInto (List.replicate 1024 (0 : Byte)) r).1 ≠ 0 := by omega
    simp only [List.map_cons, List.cons_append, handleTCPLoop, Option.isSome_none,
      Bool.false_eq_true, if_false, beq_iff_eq, hn0, tcpWrites_append, tcpWrites_packet,
      htake, tcpWrites, List.nil_append, List.singleton_append, List.append_eq, hrest]

/-- C1: echo fidelity of `handleTCPConnection`.  For reads `r_1..r_k` that each deliver
between 1 and 1024 octets and are followed by a read error or the end of the stream, the
handler performs exactly the writes `r_1..r_k`, one per read and in order, whatever the
writes return; so the octets written back, concatenated, are the octets `b` the client
sent, however `b` was split into reads. -/
theorem handleTCPConnection_echo (l : logger) (remoteAddr : String)
    (chunks : List (List Byte)) (tail : List ReadRet) (writes : List WriteRet)
    (hsize : ∀ r ∈ chunks, 1 ≤ r.length ∧ r.length ≤ 1024)
    (hend : ∀ r, tail.head? = some r → r.err.isSome = true) :
    tcpWrites (handleTCPConnection l remoteAddr
        (chunks.map (fun r => { data := r, err := none }) ++ tail) writes) = chunks
      ∧ ∀ b : List Byte, chunks.flatten = b →
          (tcpWrites (handleTCPConnection l remoteAddr
            (chunks.map (fun r => { data := r, err := none }) ++ tail) writes)).flatten = b := by
  have h : tcpWrites (handleTCPConnection l remoteAddr
      (chunks.map (fun r => { data := r, err := none }) ++ tail) writes) = chunks := by
    simp [handleTCPConnection, tcpWrites_append, tcpWrites_connection,
      handleTCPLoop_writes l remoteAddr chunks tail hsize hend writes, tcpWrites]
  exact ⟨h, fun b hb => by rw [h, hb]⟩

/-- Witness of `handleTCPConnection_echo`: two reads of two and one octets, then the end of
the stream. -/
theorem handleTCPConnection_echo_witness :
    tcpWrites (handleTCPConnection sampleLogger "10.0.0.1:5000"
        ([[1, 2], [3]].map (fun r => { data := r, err := none }) ++ []) []) = [[1, 2], [3]] :=
  (handleTCPConnection_echo sampleLogger "10.0.0.1:5000" [[1, 2], [3]] [] []
    (by decide) (by simp)).1

theorem udpWrites_append (xs ys : List Event) :
    udpWrites (xs ++ ys) = udpWrites xs ++ udpWrites ys := by
  induction xs with
  | nil => rfl
  | cons e es ih => cases e <;> simp [udpWrites, ih]

theorem udpWrites_packet (l : logger) (op net : String) (n : Nat) (d : List Byte) (a : String) :
    udpWrites (l.packet op net n d a) = [] := by
  unfold logger.packet
  split
  · rfl
  · split <;> rfl

theorem readInto_length (buf data : List Byte) :
    (readInto buf data).2.length = buf.length := by
  simp only [readInto, List.length_append, List.length_take, List.length_drop]
  omega

theorem readInto_take (buf data : List Byte) :
    (readInto buf data).2.take (readInto buf data).1 = data.take buf.length := by
  have hlen : (data.take buf.length).length = min data.length buf.length := by
    rw [List.length_take]; exact Nat.min_comm _ _
  simp only [readInto]
  rw [← hlen, List.take_left]

theorem readInto_count (buf data : List Byte) :
    (readInto buf data).1 = min data.length buf.length := rfl

theorem udpEchoLoop_writes (l : logger) (flag : Bool) (rs : List UDPRead)
    (hopen : ∀ r ∈ rs, r.socketClosed = false) (ws : List WriteRet) (buf : List Byte)
    (hbuf : buf.length = 4096) :
    udpWrites (udpEchoLoop l flag rs ws buf).1 = rs.filterMap udpExpected := by
  induction rs generalizing ws buf with
  | nil => rfl
  | cons r rs ih =>
    have hr := hopen r (List.mem_cons_self _ _)
    have hrs : ∀ x ∈ rs, x.socketClosed = false :=
      fun x hx => hopen x (List.mem_cons_of_mem _ hx)
    have hlen : (readInto buf r.data).2.length = 4096 := by rw [readInto_length, hbuf]
    have htake := readInto_take buf r.data
    have hcount := readInto_count buf r.data
    rw [hbuf] at htake hcount
    cases herr : r.err with
    | some e =>
      cases e with
      | closed msg =>
        simp [UDPRead.socketClosed, herr, NetError.isErrClosed] at hr
      | other msg =>
        simp only [udpEchoLoop, herr, Option.isSome_some, if_true, Option.map_some',
          NetError.isErrClosed, andLater, udpWrites_append, udpWrites, List.nil_append,
          List.filterMap_cons, udpExpected]
        exact ih hrs _ _ hlen
    | none =>
      by_cases hd : r.data.length = 0
      · have hn : ¬ (readInto buf r.data).1 > 0 := by rw [hcount, hd]; simp
        simp only [udpEchoLoop, herr, Option.isSome_none, Bool.false_eq_true, if_false, hn,
          List.filterMap_cons, udpExpected, hd, if_true, ih hrs _ _ hlen]
      · have hn : (readInto buf r.data).1 > 0 := by rw [hcount]; omega
        simp only [udpEchoLoop, herr, Option.isSome_none, Bool.false_eq_true, if_false, hn,
          if_true, andLater, udpWrites_append, udpWrites_packet, udpWrites, htake,
          List.nil_append, List.append_nil, List.singleton_append, List.filterMap_cons,
          udpExpected, hd, ih hrs _ _ hlen]

theorem udpEcho_trace (s : appServer) (l : logger) (localAddr : String) (rs : List UDPRead)
    (ws : List WriteRet) :
    (s.udpEcho l none localAddr rs ws).2.1
      = Event.logInfo ("UDP echo server listening on " ++ localAddr)
        :: (udpEchoLoop l s.udpClosed rs ws (List.replicate 4096 (0 : Byte))).1 := by
  simp only [appServer.udpEcho, andLater, List.singleton_append]

theorem udpEcho_writes (s : appServer) (l : logger) (localAddr : String) (rs : List UDPRead)
    (ws : List WriteRet) (hopen : ∀ r ∈ rs, r.socketClosed = false) :
    udpWrites (s.udpEcho l none localAddr rs ws).2.1 = rs.filterMap udpExpected := by
  rw [udpEcho_trace]
  simp only [udpWrites]
  exact udpEchoLoop_writes l s.udpClosed rs hopen ws _ (List.length_replicate _ _)

theorem udpExpected_nonempty (d : List Byte) (a : String) (hd : d.length ≠ 0) :
    udpExpected { data := d, addr := a, err := none } = some (d.take 4096, a) := by
  simp [udpExpected, hd]

/-- C2 (amended): datagram fidelity of `udpEcho`.  In a run whose reads do not meet the
closed-socket error, the loop sends exactly one datagram for each successful non-empty
read, in order, to the source address of that read, and its payload is the first 4096
octets of the datagram received: the datagram itself when it has at most 4096 octets.  A
failed read and an empty datagram produce no write. -/
theorem udpEcho_datagram_fidelity (s : appServer) (l : logger) (localAddr : String)
    (rs : List UDPRead) (ws : List WriteRet)
    (hopen : ∀ r ∈ rs, r.socketClosed = false) :
    udpWrites (s.udpEcho l none localAddr rs ws).2.1 = rs.filterMap udpExpected
      ∧ (∀ (d : List Byte) (a : String), d ≠ [] → d.length ≤ 4096 →
          udpExpected { data := d, addr := a, err := none } = some (d, a))
      ∧ (∀ a : String, udpExpected { data := [], addr := a, err := none } = none) := by
  refine ⟨?_, ?_, ?_⟩
  · exact udpEcho_writes s l localAddr rs ws hopen
  · intro d a hd hlen
    have h0 : d.length ≠ 0 := fun h => hd (List.length_eq_zero.mp h)
    simp [udpExpected, h0, List.take_of_length_le hlen]
  · intro a
    simp [udpExpected]

/-- Witness of `udpEcho_datagram_fidelity`: a datagram of two octets, an empty one, and a
read that fails with a timeout. -/
theorem udpEcho_datagram_fidelity_witness :
    udpWrites (sampleServer.udpEcho sampleLogger none "[::]:7"
        [{ data := [7, 9], addr := "10.0.0.9:4000", err := none },
          { data := [], addr := "10.0.0.9:4001", err := none },
          { data := [], addr := "", err := some (NetError.other "i/o timeout") }] []).2.1
      = [([7, 9], "10.0.0.9:4000")] := by
  have h := (udpEcho_datagram_fidelity sampleServer sampleLogger "[::]:7"
    [{ data := [7, 9], addr := "10.0.0.9:4000", err := none },
      { data := [], addr := "10.0.0.9:4001", err := none },
      { data := [], addr := "", err := some (NetError.other "i/o timeout") }] []
    (by decide)).1
  rw [h]
  decide

/-- C2 (as stated, refuted): a datagram of 4097 octets is answered with its first 4096
octets only, so the datagram sent back is not the datagram received. -/
theorem udpEcho_long_datagram_truncated :
    udpWrites (sampleServer.udpEcho sampleLogger none "[::]:7" [longDatagram] []).2.1
      = [(List.replicate 4096 0, "10.0.0.9:4000")]
    ∧ udpWrites (sampleServer.udpEcho sampleLogger none "[::]:7" [longDatagram] []).2.1
      ≠ [(longDatagram.data, longDatagram.addr)] := by
  have hopen : ∀ r ∈ [longDatagram], r.socketClosed = false := by
    intro r hr
    rw [List.mem_singleton] at hr
    rw [hr]
    rfl
  have hlen : (List.replicate 4097 (0 : Byte)).length ≠ 0 := by
    rw [List.length_replicate]; omega
  have hmin : min 4096 4097 = 4096 := by omega
  have h : udpWrites (sampleServer.udpEcho sampleLogger none "[::]:7" [longDatagram] []).2.1
      = [(List.replicate 4096 0, "10.0.0.9:4000")] := by
    rw [udpEcho_writes sampleServer sampleLogger "[::]:7" _ [] hopen]
    rw [List.filterMap_cons, longDatagram, udpExpected_nonempty _ _ hlen,
      List.take_replicate, hmin]
    rfl
  refine ⟨h, ?_⟩
  rw [h]
  intro hEq
  have hl := congrArg (fun x => (x.map (fun p => p.1.length))) hEq
  simp only [List.map_cons, List.map_nil, List.length_replicate, List.cons.injEq, and_true,
    longDatagram] at hl
  omega

theorem handleTCPLoop_step (l : logger) (a : String) (d : List Byte) (rs : List ReadRet)
    (ws : List WriteRet) (h1 : 1 ≤ d.length) (h2 : d.length ≤ 1024) :
    handleTCPLoop l a ({ data := d, err := none } :: rs) ws
      = l.packet "read" "TCP" d.length d a ++ [Event.connWrite d]
          ++ l.packet "write" "TCP" (nextWrite ws d).n [] a ++ handleTCPLoop l a rs ws.tail := by
  have hfit : d.length ≤ (List.replicate 1024 (0 : Byte)).length := by
    rw [List.length_replicate]; exact h2
  obtain ⟨hn, htake⟩ := readInto_fits (List.replicate 1024 (0 : Byte)) d hfit
  have hn0 : (readInto (List.replicate 1024 (0 : Byte)) d).1 ≠ 0 := by omega
  simp only [handleTCPLoop, Option.isSome_none, Bool.false_eq_true, if_false, beq_iff_eq,
    hn0, htake]
  rw [hn]

theorem udpEchoLoop_step (l : logger) (flag : Bool) (d : List Byte) (a : String)
    (rs : List UDPRead) (ws : List WriteRet) (buf : List Byte) (hd : d.length ≠ 0)
    (hfit : d.length ≤ buf.length) :
    udpEchoLoop l flag ({ data := d, addr := a, err := none } :: rs) ws buf
      = andLater (l.packet "read" "UDP" d.length d a ++ [Event.udpWriteTo d a]
          ++ l.packet "write" "UDP" (nextWrite ws d).n [] a)
          (udpEchoLoop l flag rs ws.tail (readInto buf d).2) := by
  obtain ⟨hn, htake⟩ := readInto_fits buf d hfit
  have hn0 : (readInto buf d).1 > 0 := by omega
  simp only [udpEchoLoop, Option.isSome_none, Bool.false_eq_true, if_false, hn0, if_true,
    htake]
  rw [hn]

/-- C10 (the code at the failing input): a read of two octets succeeds and the write that
echoes them fails with a broken pipe.  On TCP and on UDP alike the loop puts no error line
for the write on the error log and reports a "write" packet event with the returned
count: the branch is chosen on the read error, which is nil here, not on the write
error. -/
theorem write_failure_not_logged :
    handleTCPConnection sampleLogger "10.0.0.1:5000" [{ data := [104, 105], err := none }]
        [{ n := 0, err := some "write: broken pipe" }]
      = [Event.logConnection true "10.0.0.1:5000",
          Event.logPacket "read" "TCP" 2 (some [104, 105]) "10.0.0.1:5000",
          Event.connWrite [104, 105],
          Event.logPacket "write" "TCP" 0 none "10.0.0.1:5000",
          Event.logError "net.Read() error: EOF",
          Event.logConnection false "10.0.0.1:5000",
          Event.connClose]
    ∧ sampleServer.udpEcho sampleLogger none "[::]:7"
        [{ data := [104, 105], addr := "10.0.0.9:4000", err := none }]
        [{ n := 0, err := some "write: broken pipe" }]
      = ({ sampleServer with udpConn := Sock.listening },
          [Event.logInfo "UDP echo server listening on [::]:7",
            Event.logPacket "read" "UDP" 2 (some [104, 105]) "10.0.0.9:4000",
            Event.udpWriteTo [104, 105] "10.0.0.9:4000",
            Event.logPacket "write" "UDP" 0 none "10.0.0.9:4000"],
          LoopEnd.waiting) := by
  constructor
  · rw [handleTCPConnection, handleTCPLoop_step _ _ _ _ _ (by decide) (by decide)]
    simp only [handleTCPLoop]
    decide
  · rw [appServer.udpEcho]
    simp only [udpEchoLoop_step _ _ _ _ _ _ _ (show [(104 : Byte), 105].length ≠ 0 by decide)
      (show [(104 : Byte), 105].length ≤ (List.replicate 4096 (0 : Byte)).length by
        rw [List.length_replicate]; decide)]
    simp only [udpEchoLoop, andLater]
    decide

theorem sentOnErrors_append (xs ys : List Event) :
    sentOnErrors (xs ++ ys) = sentOnErrors xs ++ sentOnErrors ys := by
  induction xs with
  | nil => rfl
  | cons e es ih => cases e <;> simp [sentOnErrors, ih]

theorem sentOnErrors_packet (l : logger) (op net : String) (n : Nat) (d : List Byte)
    (a : String) : sentOnErrors (l.packet op net n d a) = [] := by
  unfold logger.packet
  split
  · rfl
  · split <;> rfl

theorem tcpEchoLoop_sends_nothing (flag : Bool) (accepts : List AcceptRet) :
    sentOnErrors (tcpEchoLoop flag accepts).1 = [] := by
  induction accepts with
  | nil => rfl
  | cons r rs ih =>
    cases r with
    | conn a =>
      simp only [tcpEchoLoop, andLater, sentOnErrors_append]
      simpa [sentOnErrors] using ih
    | fail e =>
      cases e with
      | closed => cases flag <;> simp [tcpEchoLoop, NetError.isErrClosed, sentOnErrors]
      | other msg =>
        simp only [tcpEchoLoop, NetError.isErrClosed, Bool.false_eq_true, if_false, andLater,
          sentOnErrors_append]
        simpa [sentOnErrors] using ih

theorem udpEchoLoop_sends_nothing (l : logger) (flag : Bool) (rs : List UDPRead)
    (ws : List WriteRet) (buf : List Byte) :
    sentOnErrors (udpEchoLoop l flag rs ws buf).1 = [] := by
  induction rs generalizing ws buf with
  | nil => rfl
  | cons r rs ih =>
    cases herr : r.err with
    | some e =>
      cases e with
      | closed =>
        cases flag <;>
          simp [udpEchoLoop, herr, NetError.isErrClosed, sentOnErrors]
      | other msg =>
        simp only [udpEchoLoop, herr, Option.isSome_some, if_true, Option.map_some',
          NetError.isErrClosed, andLater, sentOnErrors_append]
        simpa [sentOnErrors] using ih _ _
    | none =>
      by_cases hn : (readInto buf r.data).1 > 0
      · simp only [udpEchoLoop, herr, Option.isSome_none, Bool.false_eq_true, if_false, hn,
          if_true, andLater, sentOnErrors_append, sentOnErrors_packet, sentOnErrors, ih,
          List.append_nil]
      · simp only [udpEchoLoop, herr, Option.isSome_none, Bool.false_eq_true, if_false, hn,
          ih]

theorem andLater_andLater (a b : List Event) (x : List Event × LoopEnd) :
    andLater a (andLater b x) = andLater (a ++ b) x := by
  simp [andLater]

theorem andLater_nil (x : List Event × LoopEnd) : andLater [] x = x := rfl

/-- The accept loop, after results of `Accept` none of which is the closed-socket error,
has emitted their events and goes on with the rest of the script, with the same flag. -/
theorem tcpEchoLoop_append (flag : Bool) (pre rest : List AcceptRet)
    (hpre : ∀ r ∈ pre, r.socketClosed = false) :
    tcpEchoLoop flag (pre ++ rest) = andLater (pre.flatMap acceptEvents) (tcpEchoLoop flag rest) := by
  induction pre with
  | nil => rfl
  | cons r rs ih =>
    have hr := hpre r (List.mem_cons_self _ _)
    have ih' := ih (fun x hx => hpre x (List.mem_cons_of_mem _ hx))
    cases r with
    | conn a =>
      rw [List.cons_append]
      simp only [tcpEchoLoop, ih', andLater_andLater, List.flatMap_cons, acceptEvents]
    | fail e =>
      cases e with
      | closed msg => simp [AcceptRet.socketClosed, NetError.isErrClosed] at hr
      | other msg =>
        rw [List.cons_append]
        simp only [tcpEchoLoop, NetError.isErrClosed, Bool.false_eq_true, if_false, ih',
          andLater_andLater, List.flatMap_cons, acceptEvents]

/-- The UDP loop, after reads none of which is the closed-socket error, has emitted their
events and goes on with the rest of the script, with the same flag and with the write
script and the buffer those reads leave. -/
theorem udpEchoLoop_append (l : logger) (flag : Bool) (pre rest : List UDPRead)
    (hpre : ∀ r ∈ pre, r.socketClosed = false) (ws : List WriteRet) (buf : List Byte) :
    udpEchoLoop l flag (pre ++ rest) ws buf
      = andLater (udpEchoLoop l flag pre ws buf).1
          (udpEchoLoop l flag rest (udpAfter pre ws buf).1 (udpAfter pre ws buf).2) := by
  induction pre generalizing ws buf with
  | nil => rfl
  | cons r rs ih =>
    have hr := hpre r (List.mem_cons_self _ _)
    have ih' := ih (fun x hx => hpre x (List.mem_cons_of_mem _ hx))
    cases herr : r.err with
    | some e =>
      cases e with
      | closed msg => simp [UDPRead.socketClosed, herr, NetError.isErrClosed] at hr
      | other msg =>
        rw [List.cons_append]
        simp only [udpEchoLoop, udpAfter, herr, Option.isSome_some, if_true,
          Option.map_some', NetError.isErrClosed, ih', andLater_andLater]
        simp [andLater]
    | none =>
      by_cases hn : (readInto buf r.data).1 > 0
      · rw [List.cons_append]
        simp only [udpEchoLoop, udpAfter, herr, Option.isSome_none,
          Bool.false_eq_true, if_false, hn, if_true, ih', andLater_andLater]
        simp [andLater]
      · rw [List.cons_append]
        simp only [udpEchoLoop, udpAfter, herr, Option.isSome_none,
          Bool.false_eq_true, if_false, hn, ih']

/-- C9 (amended): classification of the closed-socket error in the accept loop of
`tcpEcho` and the receive loop of `udpEcho`, wherever in a run it occurs: after any
results `pre` (`upre`) that did not end the loop.  With the shutdown flag set the loop
returns and emits nothing for the failure: the trace is that of the earlier results.
With the flag not set the loop writes the error on the error log through `Fatalf`, which
ends the whole process with exit status 1.  Any other UDP read error is logged and the
loop goes on with the next read.  Neither loop ever sends a value on `s.errors`. -/
theorem closed_socket_classification (l : logger) (flag : Bool) (pre rest : List AcceptRet)
    (upre urest : List UDPRead) (ws : List WriteRet) (buf d : List Byte) (a msg : String)
    (hpre : ∀ r ∈ pre, r.socketClosed = false) (hupre : ∀ r ∈ upre, r.socketClosed = false) :
    tcpEchoLoop true (pre ++ AcceptRet.fail (NetError.closed msg) :: rest)
        = (pre.flatMap acceptEvents, LoopEnd.returned)
    ∧ udpEchoLoop l true
          (upre ++ { data := d, addr := a, err := some (NetError.closed msg) } :: urest) ws buf
        = ((udpEchoLoop l true upre ws buf).1, LoopEnd.returned)
    ∧ tcpEchoLoop false (pre ++ AcceptRet.fail (NetError.closed msg) :: rest)
        = (pre.flatMap acceptEvents
            ++ [Event.logError ("net.ReadFromUDP() error: " ++ msg), Event.osExit 1],
          LoopEnd.exited)
    ∧ udpEchoLoop l false
          (upre ++ { data := d, addr := a, err := some (NetError.closed msg) } :: urest) ws buf
        = ((udpEchoLoop l false upre ws buf).1
            ++ [Event.logError ("net.ReadFromUDP() error: " ++ msg), Event.osExit 1],
          LoopEnd.exited)
    ∧ udpEchoLoop l flag
          (upre ++ { data := d, addr := a, err := some (NetError.other msg) } :: urest) ws buf
        = andLater ((udpEchoLoop l flag upre ws buf).1
            ++ [Event.logError ("net.ReadFromUDP() error: " ++ msg)])
            (udpEchoLoop l flag urest (udpAfter upre ws buf).1
              (readInto (udpAfter upre ws buf).2 d).2)
    ∧ (∀ accepts : List AcceptRet, sentOnErrors (tcpEchoLoop flag accepts).1 = [])
    ∧ (∀ (reads : List UDPRead) (ws' : List WriteRet) (buf' : List Byte),
        sentOnErrors (udpEchoLoop l flag reads ws' buf').1 = []) := by
  refine ⟨?_, ?_, ?_, ?_, ?_, fun accepts => tcpEchoLoop_sends_nothing flag accepts,
    fun reads ws' buf' => udpEchoLoop_sends_nothing l flag reads ws' buf'⟩
  · rw [tcpEchoLoop_append true pre _ hpre]
    simp [tcpEchoLoop, NetError.isErrClosed, andLater]
  · rw [udpEchoLoop_append l true upre _ hupre]
    simp [udpEchoLoop, NetError.isErrClosed, andLater]
  · rw [tcpEchoLoop_append false pre _ hpre]
    simp [tcpEchoLoop, NetError.isErrClosed, NetError.text, andLater]
  · rw [udpEchoLoop_append l false upre _ hupre]
    simp [udpEchoLoop, NetError.isErrClosed, NetError.text, netErrText, andLater]
  · rw [udpEchoLoop_append l flag upre _ hupre]
    simp [udpEchoLoop, NetError.isErrClosed, NetError.text, netErrText, andLater]

/-- Witness of `closed_socket_classification`: the listener is closed by shutdown after a
connection was accepted and an `Accept` failed for another reason; the loop returns and
the trace holds only the events of those two results. -/
theorem closed_socket_classification_witness :
    tcpEchoLoop true (sampleAccepts
        ++ AcceptRet.fail (NetError.closed "accept tcp [::]:7: use of closed network connection")
          :: [])
      = ([Event.goHandleTCPConnection "10.0.0.1:5000",
          Event.logError
            "TCPListener.Accept() error: accept tcp [::]:7: accept4: too many open files"],
        LoopEnd.returned) :=
  (closed_socket_classification sampleLogger true sampleAccepts [] sampleReads [] [] [] [] ""
    "accept tcp [::]:7: use of closed network connection" (by decide) (by decide)).1

/-- C9 (as stated, refuted): `Accept` and `ReadFromUDP` fail with the closed-socket error
while the shutdown flag is not set.  Each loop logs and ends the process; nothing is sent
on `s.errors`. -/
theorem closed_socket_not_reported :
    (sampleServer.tcpEcho none "[::]:7" [closedAccept]).2
      = ([Event.logInfo "TCP echo server listening on [::]:7",
          Event.logError
            "net.ReadFromUDP() error: accept tcp [::]:7: use of closed network connection",
          Event.osExit 1], LoopEnd.exited)
    ∧ sentOnErrors (sampleServer.tcpEcho none "[::]:7" [closedAccept]).2.1 = []
    ∧ (sampleServer.udpEcho sampleLogger none "[::]:7" [closedRead] []).2
      = ([Event.logInfo "UDP echo server listening on [::]:7",
          Event.logError
            "net.ReadFromUDP() error: read udp [::]:7: use of closed network connection",
          Event.osExit 1], LoopEnd.exited)
    ∧ sentOnErrors (sampleServer.udpEcho sampleLogger none "[::]:7" [closedRead] []).2.1
      = [] := by
  have hu : (sampleServer.udpEcho sampleLogger none "[::]:7" [closedRead] []).2
      = ([Event.logInfo "UDP echo server listening on [::]:7",
          Event.logError
            "net.ReadFromUDP() error: read udp [::]:7: use of closed network connection",
          Event.osExit 1], LoopEnd.exited) := by
    simp [appServer.udpEcho, udpEchoLoop, andLater, sampleServer, closedRead,
      NetError.isErrClosed, netErrText, NetError.text]
  refine ⟨by decide, by decide, hu, ?_⟩
  rw [hu]
  decide

/-! ## Facts about `stop` and `start` -/

/-- The fields of the state that a block of `stop` may leave alone. -/
theorem stopHTTP_frame (env : StopEnv) (c : configuration) (w : World) :
    (stopHTTP env c w).srv.errors = w.srv.errors ∧ (stopHTTP env c w).srv.idle = w.srv.idle
      ∧ (stopHTTP env c w).srv.udpConn = w.srv.udpConn
      ∧ (stopHTTP env c w).srv.tcpListener = w.srv.tcpListener
      ∧ (stopHTTP env c w).srv.https = w.srv.https
      ∧ (stopHTTP env c w).files = w.files
      ∧ (c.http.enabled = true → (stopHTTP env c w).srv.http.inShutdown = true) := by
  unfold stopHTTP
  cases c.http.enabled <;> cases env.httpShutdownErr <;> simp [World.emit]

theorem Remove_frame (env : StopEnv) (w : World) (p : String) :
    (w.Remove env p).1.srv = w.srv ∧ (∀ q, q ∈ (w.Remove env p).1.files → q ∈ w.files)
      ∧ (env.removeErr p = none → p ∉ (w.Remove env p).1.files)
      ∧ (w.Remove env p).1.trace = w.trace ++ [Event.osRemove p] := by
  unfold World.Remove
  by_cases hp : p ∈ w.files
  · cases hr : env.removeErr p <;> simp [World.emit, hp, hr]
    intro q hq _
    exact hq
  · simp [World.emit, hp]

theorem removeLogged_frame (env : StopEnv) (w : World) (p what : String) :
    (∃ m, (removeLogged env w p what).trace = w.trace ++ [Event.osRemove p] ++ m)
      ∧ (removeLogged env w p what).srv = w.srv
      ∧ (∀ q, q ∈ (removeLogged env w p what).files → q ∈ w.files)
      ∧ (env.removeErr p = none → p ∉ (removeLogged env w p what).files) := by
  obtain ⟨hs, hf, hn, ht⟩ := Remove_frame env w p
  simp only [removeLogged]
  cases (w.Remove env p).2 with
  | none => exact ⟨⟨[], by simp [ht]⟩, hs, hf, hn⟩
  | some e =>
    exact ⟨⟨[Event.logError ("error while removing " ++ what ++ " file: " ++ e)],
      by simp [World.emit, ht]⟩, by simp [World.emit, hs], hf, hn⟩

theorem shutdownHTTPS_frame (env : StopEnv) (w : World) :
    (∃ m, (shutdownHTTPS env w).trace = w.trace ++ [Event.httpsShutdown] ++ m)
      ∧ (shutdownHTTPS env w).srv
          = { w.srv with https := { w.srv.https with inShutdown := true } }
      ∧ (shutdownHTTPS env w).files = w.files := by
  unfold shutdownHTTPS
  cases env.httpsShutdownErr with
  | none => exact ⟨⟨[Event.logInfo "HTTPS server shutdown"], by simp [World.emit]⟩, rfl, rfl⟩
  | some e =>
    exact ⟨⟨[Event.logError ("HTTPS server shutdown: " ++ e)], by simp [World.emit]⟩, rfl, rfl⟩

theorem stopAutoCert_frame (env : StopEnv) (c : configuration) (w : World) :
    (stopAutoCert env c w).srv = w.srv
      ∧ (∀ q, q ∈ (stopAutoCert env c w).files → q ∈ w.files) := by
  unfold stopAutoCert
  split
  · obtain ⟨_, hs1, hf1, _⟩ := removeLogged_frame env w c.https.cert "cert"
    obtain ⟨_, hs2, hf2, _⟩ :=
      removeLogged_frame env (removeLogged env w c.https.cert "cert") c.https.key "key"
    exact ⟨by rw [hs2, hs1], fun q hq => hf1 q (hf2 q hq)⟩
  · exact ⟨rfl, fun _ h => h⟩

theorem stopAutoCert_removes (env : StopEnv) (c : configuration) (w : World)
    (hauto : c.https.autoCert = true) :
    (∃ m2 m3, (stopAutoCert env c w).trace
        = w.trace ++ [Event.osRemove c.https.cert] ++ m2 ++ [Event.osRemove c.https.key] ++ m3)
      ∧ (env.removeErr c.https.cert = none → c.https.cert ∉ (stopAutoCert env c w).files)
      ∧ (env.removeErr c.https.key = none → c.https.key ∉ (stopAutoCert env c w).files) := by
  obtain ⟨⟨m2, ht1⟩, _, _, hn1⟩ := removeLogged_frame env w c.https.cert "cert"
  obtain ⟨⟨m3, ht2⟩, _, hf2, hn2⟩ :=
    removeLogged_frame env (removeLogged env w c.https.cert "cert") c.https.key "key"
  simp only [stopAutoCert, hauto, if_true]
  exact ⟨⟨m2, m3, by rw [ht2, ht1]⟩, fun h hq => hn1 h (hf2 _ hq), hn2⟩

theorem stopHTTPS_frame (env : StopEnv) (c : configuration) (w : World) :
    (stopHTTPS env c w).srv.errors = w.srv.errors ∧ (stopHTTPS env c w).srv.idle = w.srv.idle
      ∧ (stopHTTPS env c w).srv.udpConn = w.srv.udpConn
      ∧ (stopHTTPS env c w).srv.tcpListener = w.srv.tcpListener
      ∧ (stopHTTPS env c w).srv.http = w.srv.http
      ∧ (c.https.enabled = true → (stopHTTPS env c w).srv.https.inShutdown = true) := by
  unfold stopHTTPS
  cases c.https.enabled
  · simp
  · simp [(stopAutoCert_frame env c _).1, (shutdownHTTPS_frame env w).2.1]

theorem stopHTTPS_removes (env : StopEnv) (c : configuration) (w : World)
    (hen : c.https.enabled = true) (hauto : c.https.autoCert = true) :
    (∃ m1 m2 m3, (stopHTTPS env c w).trace
        = w.trace ++ [Event.httpsShutdown] ++ m1 ++ [Event.osRemove c.https.cert] ++ m2
            ++ [Event.osRemove c.https.key] ++ m3)
      ∧ (env.removeErr c.https.cert = none → c.https.cert ∉ (stopHTTPS env c w).files)
      ∧ (env.removeErr c.https.key = none → c.https.key ∉ (stopHTTPS env c w).files) := by
  obtain ⟨⟨m1, ht1⟩, _, _⟩ := shutdownHTTPS_frame env w
  obtain ⟨⟨m2, m3, ht⟩, hc, hk⟩ := stopAutoCert_removes env c (shutdownHTTPS env w) hauto
  simp only [stopHTTPS, hen, if_true]
  exact ⟨⟨m1, m2, m3, by rw [ht, ht1]⟩, hc, hk⟩

theorem stopUDP_frame (env : StopEnv) (c : configuration) (w : World) :
    (∃ m, (stopUDP env c w).1.trace = w.trace ++ m) ∧ (stopUDP env c w).1.files = w.files
      ∧ (stopUDP env c w).1.logFileOpen = w.logFileOpen
      ∧ (stopUDP env c w).1.srv.errors = w.srv.errors ∧ (stopUDP env c w).1.srv.idle = w.srv.idle
      ∧ (stopUDP env c w).1.srv.tcpListener = w.srv.tcpListener
      ∧ (stopUDP env c w).1.srv.http = w.srv.http ∧ (stopUDP env c w).1.srv.https = w.srv.https
      ∧ ((c.udp.enabled = true → w.srv.udpConn ≠ Sock.unset) → (stopUDP env c w).2 = Go.ret ())
      ∧ (c.udp.enabled = true → w.srv.udpConn = Sock.listening →
          (stopUDP env c w).1.srv.udpConn = Sock.closed)
      ∧ (w.srv.udpConn ≠ Sock.unset → (stopUDP env c w).1.srv.udpConn ≠ Sock.unset) := by
  unfold stopUDP
  cases c.udp.enabled
  · exact ⟨⟨[], by simp⟩, by simp⟩
  · cases hs : w.srv.udpConn
    · exact ⟨⟨[Event.logInfo "UDP echo server shutdown"], by simp [World.emit, hs]⟩,
        by simp [World.emit, hs]⟩
    · exact ⟨⟨[Event.logInfo "UDP echo server shutdown", Event.udpConnClose],
        by simp [World.emit, hs]⟩, by simp [World.emit, hs]⟩
    · exact ⟨⟨[Event.logInfo "UDP echo server shutdown", Event.udpConnClose,
          Event.logError ("udpConn.Close() error: " ++ env.udpCloseErr)],
        by simp [World.emit, hs]⟩, by simp [World.emit, hs]⟩

theorem stopTCP_frame (env : StopEnv) (c : configuration) (w : World) :
    (∃ m, (stopTCP env c w).trace = w.trace ++ m) ∧ (stopTCP env c w).files = w.files
      ∧ (stopTCP env c w).logFileOpen = w.logFileOpen
      ∧ (stopTCP env c w).srv.errors = w.srv.errors ∧ (stopTCP env c w).srv.idle = w.srv.idle
      ∧ (stopTCP env c w).srv.udpConn = w.srv.udpConn
      ∧ (stopTCP env c w).srv.http = w.srv.http ∧ (stopTCP env c w).srv.https = w.srv.https
      ∧ (c.tcp.enabled = true → w.srv.tcpListener = Sock.listening →
          (stopTCP env c w).srv.tcpListener = Sock.closed) := by
  unfold stopTCP
  cases c.tcp.enabled
  · exact ⟨⟨[], by simp⟩, by simp⟩
  · cases hs : w.srv.tcpListener
    · exact ⟨⟨[Event.logInfo "TCP echo server shutdown", Event.tcpListenerClose,
          Event.logError "TCPListener.Close() error: invalid argument"],
        by simp [World.emit, hs]⟩, by simp [World.emit, hs]⟩
    · exact ⟨⟨[Event.logInfo "TCP echo server shutdown", Event.tcpListenerClose],
        by simp [World.emit, hs]⟩, by simp [World.emit, hs]⟩
    · exact ⟨⟨[Event.logInfo "TCP echo server shutdown", Event.tcpListenerClose,
          Event.logError ("TCPListener.Close() error: " ++ env.tcpCloseErr)],
        by simp [World.emit, hs]⟩, by simp [World.emit, hs]⟩

theorem stopLog_frame (env : StopEnv) (c : configuration) (w : World) :
    (∃ m, (stopLog env c w).trace = w.trace ++ m) ∧ (stopLog env c w).files = w.files
      ∧ (stopLog env c w).srv = w.srv := by
  unfold stopLog
  cases c.log.enabled
  · exact ⟨⟨[], by simp⟩, by simp⟩
  · cases w.logFileOpen
    · exact ⟨⟨[Event.logFileClose,
          Event.stdout ("error while closing log file: " ++ env.logCloseErr)],
        by simp [World.emit]⟩, by simp [World.emit]⟩
    · exact ⟨⟨[Event.logFileClose], by simp [World.emit]⟩, by simp [World.emit]⟩

theorem stopChannels_frame (w : World) :
    (∃ m, (stopChannels w).1.trace = w.trace ++ m) ∧ (stopChannels w).1.files = w.files
      ∧ (stopChannels w).1.srv.udpConn = w.srv.udpConn
      ∧ (stopChannels w).1.srv.tcpListener = w.srv.tcpListener
      ∧ (stopChannels w).1.srv.http = w.srv.http ∧ (stopChannels w).1.srv.https = w.srv.https
      ∧ (w.srv.errors = Chan.ready → w.srv.idle = Chan.ready →
          (stopChannels w).2 = Go.ret () ∧ (stopChannels w).1.srv.errors = Chan.closed
            ∧ (stopChannels w).1.srv.idle = Chan.closed
            ∧ (stopChannels w).1.trace = w.trace ++ [Event.closeErrors, Event.closeIdle])
      ∧ (w.srv.errors = Chan.closed →
          (stopChannels w) = (w.emit [Event.closeErrors], Go.panic "close of closed channel"))
      := by
  unfold stopChannels
  cases he : w.srv.errors <;> cases hi : w.srv.idle <;>
    simp [Chan.close, World.emit, he, hi]

/-- After the HTTP and HTTPS blocks, `stop` only appends to the trace and leaves the files
alone, however it ends. -/
theorem stop_tail (env : StopEnv) (c : configuration) (w : World) :
    (∃ m, (appServer.stop env c w).1.trace
        = (stopHTTPS env c (stopHTTP env c w)).trace ++ m)
      ∧ (appServer.stop env c w).1.files = (stopHTTPS env c (stopHTTP env c w)).files := by
  obtain ⟨⟨mu, htu⟩, hfu, _⟩ := stopUDP_frame env c (stopHTTPS env c (stopHTTP env c w))
  simp only [appServer.stop]
  cases (stopUDP env c (stopHTTPS env c (stopHTTP env c w))).2 with
  | panic msg => exact ⟨⟨mu, htu⟩, hfu⟩
  | ret u =>
    obtain ⟨⟨mt, htt⟩, hft, _⟩ :=
      stopTCP_frame env c (stopUDP env c (stopHTTPS env c (stopHTTP env c w))).1
    obtain ⟨⟨ml, htl⟩, hfl, _⟩ :=
      stopLog_frame env c (stopTCP env c (stopUDP env c (stopHTTPS env c (stopHTTP env c w))).1)
    obtain ⟨⟨mc, htc⟩, hfc, _⟩ := stopChannels_frame
      (stopLog env c (stopTCP env c (stopUDP env c (stopHTTPS env c (stopHTTP env c w))).1))
    refine ⟨⟨mu ++ mt ++ ml ++ mc, ?_⟩, ?_⟩
    · simp only [htc, htl, htt, htu, List.append_assoc]
    · simp only [hfc, hfl, hft, hfu]

/-- With both channels open and the UDP socket made, `stop` runs to its end: it returns,
both channels are closed, and every enabled transport that was open is closed. -/
theorem stop_completes (env : StopEnv) (c : configuration) (w : World)
    (he : w.srv.errors = Chan.ready) (hi : w.srv.idle = Chan.ready)
    (hu : c.udp.enabled = true → w.srv.udpConn ≠ Sock.unset) :
    (appServer.stop env c w).2 = Go.ret ()
      ∧ (appServer.stop env c w).1.srv.errors = Chan.closed
      ∧ (appServer.stop env c w).1.srv.idle = Chan.closed
      ∧ (c.http.enabled = true → (appServer.stop env c w).1.srv.http.inShutdown = true)
      ∧ (c.https.enabled = true → (appServer.stop env c w).1.srv.https.inShutdown = true)
      ∧ (c.udp.enabled = true → w.srv.udpConn = Sock.listening →
          (appServer.stop env c w).1.srv.udpConn = Sock.closed)
      ∧ (c.tcp.enabled = true → w.srv.tcpListener = Sock.listening →
          (appServer.stop env c w).1.srv.tcpListener = Sock.closed)
      ∧ (w.srv.udpConn ≠ Sock.unset → (appServer.stop env c w).1.srv.udpConn ≠ Sock.unset) := by
  obtain ⟨h1e, h1i, h1u, h1t, h1s, _, h1h⟩ := stopHTTP_frame env c w
  obtain ⟨h2e, h2i, h2u, h2t, h2h, h2s⟩ := stopHTTPS_frame env c (stopHTTP env c w)
  obtain ⟨_, _, _, h3e, h3i, h3t, h3h, h3s, h3r, h3u, h3n⟩ :=
    stopUDP_frame env c (stopHTTPS env c (stopHTTP env c w))
  have hret := h3r (fun h => by rw [h2u, h1u]; exact hu h)
  obtain ⟨_, _, _, h4e, h4i, h4u, h4h, h4s, h4t⟩ :=
    stopTCP_frame env c (stopUDP env c (stopHTTPS env c (stopHTTP env c w))).1
  obtain ⟨_, _, h5⟩ :=
    stopLog_frame env c (stopTCP env c (stopUDP env c (stopHTTPS env c (stopHTTP env c w))).1)
  obtain ⟨_, _, h6u, h6t, h6h, h6s, h6, _⟩ := stopChannels_frame
    (stopLog env c (stopTCP env c (stopUDP env c (stopHTTPS env c (stopHTTP env c w))).1))
  obtain ⟨h7r, h7e, h7i, _⟩ := h6 (by rw [h5, h4e, h3e, h2e, h1e, he])
    (by rw [h5, h4i, h3i, h2i, h1i, hi])
  simp only [appServer.stop, hret]
  refine ⟨h7r, h7e, h7i, ?_, ?_, ?_, ?_, ?_⟩
  · intro h; rw [h6h, h5, h4h, h3h, h2h]; exact h1h h
  · intro h; rw [h6s, h5, h4s, h3s]; exact h2s h
  · intro h hl; rw [h6u, h5, h4u]; exact h3u h (by rw [h2u, h1u]; exact hl)
  · intro h hl; rw [h6t, h5]; exact h4t h (by rw [h3t, h2t, h1t]; exact hl)
  · intro hn; rw [h6u, h5, h4u]; exact h3n (by rw [h2u, h1u]; exact hn)

/-- With the errors channel already closed and the UDP socket made, `stop` runs through
its transport blocks and panics in `close(s.errors)`. -/
theorem stop_on_closed_channel (env : StopEnv) (c : configuration) (w : World)
    (he : w.srv.errors = Chan.closed)
    (hu : c.udp.enabled = true → w.srv.udpConn ≠ Sock.unset) :
    (appServer.stop env c w).2 = Go.panic "close of closed channel" := by
  obtain ⟨h1e, _, h1u, _⟩ := stopHTTP_frame env c w
  obtain ⟨h2e, _, h2u, _⟩ := stopHTTPS_frame env c (stopHTTP env c w)
  obtain ⟨_, _, _, h3e, _, _, _, _, h3r, _⟩ :=
    stopUDP_frame env c (stopHTTPS env c (stopHTTP env c w))
  have hret := h3r (fun h => by rw [h2u, h1u]; exact hu h)
  obtain ⟨_, _, _, h4e, _⟩ :=
    stopTCP_frame env c (stopUDP env c (stopHTTPS env c (stopHTTP env c w))).1
  obtain ⟨_, _, h5⟩ :=
    stopLog_frame env c (stopTCP env c (stopUDP env c (stopHTTPS env c (stopHTTP env c w))).1)
  obtain ⟨_, _, _, _, _, _, _, h6⟩ := stopChannels_frame
    (stopLog env c (stopTCP env c (stopUDP env c (stopHTTPS env c (stopHTTP env c w))).1))
  simp only [appServer.stop, hret]
  rw [h6 (by rw [h5, h4e, h3e, h2e, h1e, he])]

/-- C5: cleanup of the generated certificate and key.  With HTTPS enabled and `autoCert`
set, `stop` calls `os.Remove` on the certificate path and then on the key path, both after
the HTTPS `Shutdown` call, whatever that call and the first removal returned; when `stop`
is entered with both channels open (and the UDP socket made, if UDP is enabled) it then
runs to its end; and when removals of files on disk do not fail, neither path is on disk
after `stop`. -/
theorem stop_removes_generated_files (env : StopEnv) (c : configuration) (w : World)
    (hen : c.https.enabled = true) (hauto : c.https.autoCert = true) :
    (∃ pre m1 m2 post, (appServer.stop env c w).1.trace
        = w.trace ++ pre ++ [Event.httpsShutdown] ++ m1 ++ [Event.osRemove c.https.cert] ++ m2
            ++ [Event.osRemove c.https.key] ++ post)
      ∧ (w.srv.errors = Chan.ready → w.srv.idle = Chan.ready →
          (c.udp.enabled = true → w.srv.udpConn ≠ Sock.unset) →
          (appServer.stop env c w).2 = Go.ret ()
            ∧ (appServer.stop env c w).1.srv.idle = Chan.closed)
      ∧ ((∀ p, env.removeErr p = none) →
          c.https.cert ∉ (appServer.stop env c w).1.files
            ∧ c.https.key ∉ (appServer.stop env c w).1.files) := by
  obtain ⟨⟨post, htail⟩, hfiles⟩ := stop_tail env c w
  obtain ⟨⟨m1, m2, m3, ht⟩, hc, hk⟩ := stopHTTPS_removes env c (stopHTTP env c w) hen hauto
  have hpre : ∃ pre, (stopHTTP env c w).trace = w.trace ++ pre := by
    unfold stopHTTP
    cases c.http.enabled <;> cases env.httpShutdownErr <;> simp [World.emit]
  obtain ⟨pre, hp⟩ := hpre
  refine ⟨⟨pre, m1, m2, m3 ++ post, ?_⟩, ?_, ?_⟩
  · rw [htail, ht, hp]; simp only [List.append_assoc]
  · intro he hi hu
    exact ⟨(stop_completes env c w he hi hu).1, (stop_completes env c w he hi hu).2.2.1⟩
  · intro hrem
    rw [hfiles]
    exact ⟨hc (hrem _), hk (hrem _)⟩

/-- Witness of `stop_removes_generated_files`: the generated pair of `autoCertConfig` is on
disk before `stop` and gone after it. -/
theorem stop_removes_generated_files_witness :
    "/tmp/server_crt_1" ∉ (appServer.stop quietEnv autoCertConfig runningWorld).1.files
      ∧ "/tmp/server_key_1" ∉ (appServer.stop quietEnv autoCertConfig runningWorld).1.files :=
  (stop_removes_generated_files quietEnv autoCertConfig runningWorld rfl rfl).2.2
    (fun _ => rfl)

/-! ## The steps of the stop procedure, in order -/

theorem stopSteps_append (xs ys : List Event) :
    stopSteps (xs ++ ys) = stopSteps xs ++ stopSteps ys := by
  simp [stopSteps]

theorem stopSteps_emit (w : World) (es : List Event) :
    stopSteps (w.emit es).trace = stopSteps w.trace ++ stopSteps es :=
  stopSteps_append _ _

theorem stopHTTP_steps (env : StopEnv) (c : configuration) (w : World) :
    stopSteps (stopHTTP env c w).trace
      = stopSteps w.trace ++ (if c.http.enabled then [Event.httpShutdown] else []) := by
  unfold stopHTTP
  cases c.http.enabled <;> cases env.httpShutdownErr <;>
    simp [World.emit, stopSteps, Event.isStopStep]

theorem removeLogged_steps (env : StopEnv) (w : World) (p what : String) :
    stopSteps (removeLogged env w p what).trace = stopSteps w.trace ++ [Event.osRemove p] := by
  obtain ⟨_, _, _, ht⟩ := Remove_frame env w p
  simp only [removeLogged]
  cases (w.Remove env p).2 with
  | none => simp [ht, stopSteps, Event.isStopStep]
  | some e => simp [World.emit, ht, stopSteps, Event.isStopStep]

theorem shutdownHTTPS_steps (env : StopEnv) (w : World) :
    stopSteps (shutdownHTTPS env w).trace = stopSteps w.trace ++ [Event.httpsShutdown] := by
  unfold shutdownHTTPS
  cases env.httpsShutdownErr <;> simp [World.emit, stopSteps, Event.isStopStep]

theorem stopHTTPS_steps (env : StopEnv) (c : configuration) (w : World) :
    stopSteps (stopHTTPS env c w).trace
      = stopSteps w.trace
          ++ (if c.https.enabled then
                Event.httpsShutdown ::
                  (if c.https.autoCert then
                    [Event.osRemove c.https.cert, Event.osRemove c.https.key]
                  else [])
              else []) := by
  unfold stopHTTPS stopAutoCert
  cases c.https.enabled
  · simp
  · cases c.https.autoCert
    · simp [shutdownHTTPS_steps]
    · simp [removeLogged_steps, shutdownHTTPS_steps]

theorem stopUDP_steps (env : StopEnv) (c : configuration) (w : World)
    (hu : c.udp.enabled = true → w.srv.udpConn ≠ Sock.unset) :
    stopSteps (stopUDP env c w).1.trace
      = stopSteps w.trace ++ (if c.udp.enabled then [Event.udpConnClose] else []) := by
  unfold stopUDP
  cases hen : c.udp.enabled
  · simp
  · cases hs : w.srv.udpConn
    · exact absurd hs (hu hen)
    · simp [World.emit, hs, stopSteps, Event.isStopStep]
    · simp [World.emit, hs, stopSteps, Event.isStopStep]

theorem stopTCP_steps (env : StopEnv) (c : configuration) (w : World) :
    stopSteps (stopTCP env c w).trace
      = stopSteps w.trace ++ (if c.tcp.enabled then [Event.tcpListenerClose] else []) := by
  unfold stopTCP
  cases c.tcp.enabled
  · simp
  · cases hs : w.srv.tcpListener <;> simp [World.emit, hs, stopSteps, Event.isStopStep]

theorem stopLog_steps (env : StopEnv) (c : configuration) (w : World) :
    stopSteps (stopLog env c w).trace
      = stopSteps w.trace ++ (if c.log.enabled then [Event.logFileClose] else []) := by
  unfold stopLog
  cases c.log.enabled
  · simp
  · cases w.logFileOpen <;> simp [World.emit, stopSteps, Event.isStopStep]

/-- The transport blocks of `stop` make the steps of `transportPlan`, in that order, and
leave both channels as they were; when the UDP socket has been made, `stop` goes on to
close the channels in the state they leave. -/
theorem stopBlocks_steps (env : StopEnv) (c : configuration) (w : World)
    (hu : c.udp.enabled = true → w.srv.udpConn ≠ Sock.unset) :
    stopSteps (stopBlocks env c w).trace = stopSteps w.trace ++ transportPlan c
      ∧ (stopBlocks env c w).srv.errors = w.srv.errors
      ∧ (stopBlocks env c w).srv.idle = w.srv.idle
      ∧ appServer.stop env c w = stopChannels (stopBlocks env c w) := by
  obtain ⟨h1e, h1i, h1u, _⟩ := stopHTTP_frame env c w
  obtain ⟨h2e, h2i, h2u, _⟩ := stopHTTPS_frame env c (stopHTTP env c w)
  obtain ⟨_, _, _, h3e, h3i, _, _, _, h3r, _⟩ :=
    stopUDP_frame env c (stopHTTPS env c (stopHTTP env c w))
  have hu' : c.udp.enabled = true → (stopHTTPS env c (stopHTTP env c w)).srv.udpConn ≠ Sock.unset :=
    fun h => by rw [h2u, h1u]; exact hu h
  have hret := h3r hu'
  obtain ⟨_, _, _, h4e, h4i, _⟩ :=
    stopTCP_frame env c (stopUDP env c (stopHTTPS env c (stopHTTP env c w))).1
  obtain ⟨_, _, h5⟩ :=
    stopLog_frame env c (stopTCP env c (stopUDP env c (stopHTTPS env c (stopHTTP env c w))).1)
  refine ⟨?_, ?_, ?_, ?_⟩
  · simp only [stopBlocks, stopLog_steps, stopTCP_steps, stopUDP_steps env c _ hu',
      stopHTTPS_steps, stopHTTP_steps, transportPlan, List.append_assoc]
  · simp only [stopBlocks]; rw [h5, h4e, h3e, h2e, h1e]
  · simp only [stopBlocks]; rw [h5, h4i, h3i, h2i, h1i]
  · simp only [appServer.stop, hret, stopBlocks]

/-- C4 (amended): one call of `stop`, entered with both channels open (and the UDP socket
made, if UDP is enabled), returns without a panic and leaves `s.errors` and `s.idle`
closed; its steps are those of `transportPlan`, then `close(s.errors)`, then
`close(s.idle)`.  A second call in sequence makes every step of `transportPlan` again,
calls `close(s.errors)` and panics there, the channel being closed already; it never
reaches `close(s.idle)`, and both channels stay closed. -/
theorem stop_once_returns_twice_panics (env : StopEnv) (c : configuration) (w : World)
    (he : w.srv.errors = Chan.ready) (hi : w.srv.idle = Chan.ready)
    (hu : c.udp.enabled = true → w.srv.udpConn ≠ Sock.unset) :
    (appServer.stop env c w).2 = Go.ret ()
      ∧ (appServer.stop env c w).1.srv.errors = Chan.closed
      ∧ (appServer.stop env c w).1.srv.idle = Chan.closed
      ∧ stopSteps (appServer.stop env c w).1.trace
          = stopSteps w.trace ++ transportPlan c ++ [Event.closeErrors, Event.closeIdle]
      ∧ (stopTwice env c w).2 = Go.panic "close of closed channel"
      ∧ stopSteps (stopTwice env c w).1.trace
          = stopSteps (appServer.stop env c w).1.trace ++ transportPlan c
              ++ [Event.closeErrors]
      ∧ (stopTwice env c w).1.srv.errors = Chan.closed
      ∧ (stopTwice env c w).1.srv.idle = Chan.closed := by
  obtain ⟨hr, hce, hci, _, _, _, _, hn⟩ := stop_completes env c w he hi hu
  obtain ⟨b1, b2, b3, b4⟩ := stopBlocks_steps env c w hu
  obtain ⟨_, _, _, _, _, _, k1, _⟩ := stopChannels_frame (stopBlocks env c w)
  obtain ⟨_, _, _, k1t⟩ := k1 (by rw [b2, he]) (by rw [b3, hi])
  have hfirst : stopSteps (appServer.stop env c w).1.trace
      = stopSteps w.trace ++ transportPlan c ++ [Event.closeErrors, Event.closeIdle] := by
    rw [b4, k1t, stopSteps_append, b1]
    rfl
  have hu2 : c.udp.enabled = true → (appServer.stop env c w).1.srv.udpConn ≠ Sock.unset :=
    fun h => hn (hu h)
  obtain ⟨c1, c2, c3, c4⟩ := stopBlocks_steps env c (appServer.stop env c w).1 hu2
  obtain ⟨_, _, _, _, _, _, _, k2⟩ :=
    stopChannels_frame (stopBlocks env c (appServer.stop env c w).1)
  have k2' := k2 (by rw [c2, hce])
  have htwice : stopTwice env c w
      = ((stopBlocks env c (appServer.stop env c w).1).emit [Event.closeErrors],
          Go.panic "close of closed channel") := by
    simp only [stopTwice, hr]
    rw [c4, k2']
  refine ⟨hr, hce, hci, hfirst, ?_, ?_, ?_, ?_⟩
  · rw [htwice]
  · rw [htwice]
    show stopSteps ((stopBlocks env c (appServer.stop env c w).1).emit [Event.closeErrors]).trace
      = _
    rw [stopSteps_emit, c1]
    rfl
  · rw [htwice]
    show (stopBlocks env c (appServer.stop env c w).1).srv.errors = Chan.closed
    rw [c2, hce]
  · rw [htwice]
    show (stopBlocks env c (appServer.stop env c w).1).srv.idle = Chan.closed
    rw [c3, hci]

/-- Witness of `stop_once_returns_twice_panics`: HTTP and TCP echo enabled, both sockets
open.  The first call shuts HTTP down, closes the TCP listener and closes both channels;
the second repeats the two transport steps and panics in `close(s.errors)`. -/
theorem stop_once_returns_twice_panics_witness :
    (appServer.stop quietEnv httpTcpConfig runningWorld).2 = Go.ret ()
      ∧ stopSteps (stopTwice quietEnv httpTcpConfig runningWorld).1.trace
          = [Event.httpShutdown, Event.tcpListenerClose, Event.closeErrors, Event.closeIdle,
              Event.httpShutdown, Event.tcpListenerClose, Event.closeErrors]
      ∧ (stopTwice quietEnv httpTcpConfig runningWorld).2
          = Go.panic "close of closed channel" := by
  obtain ⟨h1, _, _, h4, h5, h6, _⟩ :=
    stop_once_returns_twice_panics quietEnv httpTcpConfig runningWorld rfl rfl
      (fun h => by simp [httpTcpConfig, defaultConfig] at h)
  refine ⟨h1, ?_, h5⟩
  rw [h6, h4]
  decide

/-- C4 (as stated, refuted): with HTTP and TCP echo enabled and both sockets open, the
second of two calls of `stop` panics: it closes the closed channel `s.errors`. -/
theorem stop_twice_panics :
    (stopTwice quietEnv httpTcpConfig runningWorld).2 = Go.panic "close of closed channel"
      ∧ stopSteps (stopTwice quietEnv httpTcpConfig runningWorld).1.trace
          = [Event.httpShutdown, Event.tcpListenerClose, Event.closeErrors, Event.closeIdle,
              Event.httpShutdown, Event.tcpListenerClose, Event.closeErrors] := by
  decide

theorem startSetup_frame (c : configuration) (w : World) :
    (startSetup c w).srv.errors = Chan.ready ∧ (startSetup c w).srv.idle = Chan.ready
      ∧ (startSetup c w).srv.udpConn = w.srv.udpConn
      ∧ (startSetup c w).srv.tcpListener = w.srv.tcpListener
      ∧ (c.http.enabled = true → (startSetup c w).srv.http.inShutdown = false)
      ∧ (c.https.enabled = true → (startSetup c w).srv.https.inShutdown = false)
      ∧ (startSetup c w).files = w.files := by
  unfold startSetup
  cases c.http.enabled <;> cases c.https.enabled <;> cases c.tcp.enabled <;>
    cases c.udp.enabled <;> simp [World.emit]

theorem transportsClosed_of (c : configuration) (s : appServer)
    (h1 : c.http.enabled = true → s.http.inShutdown = true)
    (h2 : c.https.enabled = true → s.https.inShutdown = true)
    (h3 : c.udp.enabled = true → s.udpConn = Sock.closed)
    (h4 : c.tcp.enabled = true → s.tcpListener = Sock.closed) :
    transportsClosed c s = true := by
  unfold transportsClosed
  cases h5 : c.http.enabled <;> cases h6 : c.https.enabled <;>
    cases h7 : c.udp.enabled <;> cases h8 : c.tcp.enabled <;>
    simp_all

theorem startWait_returns (w : World) (v : Option String) (h : w.srv.idle = Chan.closed) :
    (startWait w v).2 = MainEnd.returned := by
  have h' : (w.emit [Event.logError (printlnText v)]).srv.idle = Chan.closed := h
  simp only [startWait, h', beq_self_eq_true, if_true]

theorem stopSteps_packet (l : logger) (op net : String) (n : Nat) (d : List Byte)
    (a : String) : stopSteps (l.packet op net n d a) = [] := by
  unfold logger.packet
  split
  · rfl
  · split <;> rfl

theorem stopSteps_connection (l : logger) (b : Bool) (a : String) :
    stopSteps (l.connection b a) = [] := by
  unfold logger.connection
  split
  · rfl
  · split <;> rfl

theorem tcpEchoLoop_no_stop (flag : Bool) (accepts : List AcceptRet) :
    stopSteps (tcpEchoLoop flag accepts).1 = [] := by
  induction accepts with
  | nil => rfl
  | cons r rs ih =>
    cases r with
    | conn a =>
      simp only [tcpEchoLoop, andLater, stopSteps_append, ih, List.append_nil]
      rfl
    | fail e =>
      cases e with
      | closed msg => cases flag <;> rfl
      | other msg =>
        simp only [tcpEchoLoop, NetError.isErrClosed, Bool.false_eq_true, if_false, andLater,
          stopSteps_append, ih, List.append_nil]
        rfl

theorem udpEchoLoop_no_stop (l : logger) (flag : Bool) (rs : List UDPRead)
    (ws : List WriteRet) (buf : List Byte) :
    stopSteps (udpEchoLoop l flag rs ws buf).1 = [] := by
  induction rs generalizing ws buf with
  | nil => rfl
  | cons r rs ih =>
    cases herr : r.err with
    | some e =>
      cases e with
      | closed msg =>
        cases flag <;>
          simp [udpEchoLoop, herr, NetError.isErrClosed, stopSteps, Event.isStopStep]
      | other msg =>
        simp only [udpEchoLoop, herr, Option.isSome_some, if_true, Option.map_some',
          NetError.isErrClosed, andLater, stopSteps_append]
        simpa [stopSteps, Event.isStopStep] using ih _ _
    | none =>
      by_cases hn : (readInto buf r.data).1 > 0
      · simp only [udpEchoLoop, herr, Option.isSome_none, Bool.false_eq_true, if_false, hn,
          if_true, andLater, stopSteps_append, stopSteps_packet, ih, List.append_nil,
          List.nil_append]
        rfl
      · simp only [udpEchoLoop, herr, Option.isSome_none, Bool.false_eq_true, if_false, hn,
          ih]

theorem handleTCPLoop_no_stop (l : logger) (a : String) (rs : List ReadRet)
    (ws : List WriteRet) : stopSteps (handleTCPLoop l a rs ws) = [] := by
  induction rs generalizing ws with
  | nil => rfl
  | cons r rs ih =>
    cases herr : r.err with
    | some e => simp only [handleTCPLoop, herr, Option.isSome_some, if_true]; rfl
    | none =>
      by_cases hn : (readInto (List.replicate 1024 (0 : Byte)) r.data).1 = 0
      · simp only [handleTCPLoop, herr, Option.isSome_none, Bool.false_eq_true, if_false,
          beq_iff_eq, hn, if_true]
        rfl
      · simp only [handleTCPLoop, herr, Option.isSome_none, Bool.false_eq_true, if_false,
          beq_iff_eq, hn, stopSteps_append, stopSteps_packet, ih, List.append_nil,
          List.nil_append]
        rfl

/-- No listener task and no connection handler makes a step of the stop procedure. -/
theorem tasks_make_no_stop_step (c : configuration) (l : logger) :
    (∀ serveErr, stopSteps (httpTask c serveErr) = [] ∧ stopSteps (httpsTask c serveErr) = [])
      ∧ (∀ (s : appServer) (listenErr : Option NetError) (addr : String)
          (accepts : List AcceptRet), stopSteps (s.tcpEcho listenErr addr accepts).2.1 = [])
      ∧ (∀ (s : appServer) (listenErr : Option NetError) (addr : String) (reads : List UDPRead)
          (writes : List WriteRet),
          stopSteps (s.udpEcho l listenErr addr reads writes).2.1 = [])
      ∧ (∀ (addr : String) (reads : List ReadRet) (writes : List WriteRet),
          stopSteps (handleTCPConnection l addr reads writes) = []) := by
  refine ⟨fun serveErr => ⟨rfl, rfl⟩, fun s listenErr addr accepts => ?_,
    fun s listenErr addr reads writes => ?_, fun addr reads writes => ?_⟩
  · cases listenErr with
    | some e => rfl
    | none =>
      simp only [appServer.tcpEcho, andLater, stopSteps_append, tcpEchoLoop_no_stop,
        List.append_nil]
      rfl
  · cases listenErr with
    | some e => rfl
    | none =>
      simp only [appServer.udpEcho, andLater, stopSteps_append, udpEchoLoop_no_stop,
        List.append_nil]
      rfl
  · simp only [handleTCPConnection, stopSteps_append, stopSteps_connection,
      handleTCPLoop_no_stop, List.append_nil, List.nil_append]
    rfl

theorem startSetup_steps (c : configuration) (w : World) :
    stopSteps (startSetup c w).trace = stopSteps w.trace := by
  unfold startSetup
  cases c.http.enabled <;> cases c.https.enabled <;> cases c.tcp.enabled <;>
    cases c.udp.enabled <;> simp [World.emit, stopSteps, Event.isStopStep]

/-- C3 (amended): when the first value `start` receives from `s.errors` is an error that
is not nil, `start` prints it on the error log and then waits on `s.idle`: it does not run
the stop procedure.  `start` leaves both channels open when it starts its tasks and makes
no step of the stop procedure.  In the state `w` in which the value is received (with
`s.idle` still open) the main task adds the log line and nothing else: the server record
is unchanged, so every transport is closed or open as it was, no step of the stop
procedure is made, and the main task stays blocked.  No listener task and no connection
handler makes a step of the stop procedure; the body of the interrupt task is `stop`.
Run with both channels open and the enabled echo sockets open, `stop` closes every
enabled transport and `s.idle`; after it the wait of the main task on `s.idle`
completes. -/
theorem start_logs_listener_error_and_waits (c : configuration) (w0 w : World) (e : String)
    (env : StopEnv) (l : logger) (hidle : w.srv.idle = Chan.ready)
    (herrors : w.srv.errors = Chan.ready) :
    (startSetup c w0).srv.idle = Chan.ready ∧ (startSetup c w0).srv.errors = Chan.ready
      ∧ stopSteps (startSetup c w0).trace = stopSteps w0.trace
      ∧ startWait w (some e) = (w.emit [Event.logError e], MainEnd.waitingOnIdle)
      ∧ (startWait w (some e)).1.srv = w.srv
      ∧ (startWait w (some e)).1.files = w.files
      ∧ transportsClosed c (startWait w (some e)).1.srv = transportsClosed c w.srv
      ∧ stopSteps (startWait w (some e)).1.trace = stopSteps w.trace
      ∧ (∀ serveErr,
          stopSteps (httpTask c serveErr) = [] ∧ stopSteps (httpsTask c serveErr) = [])
      ∧ (∀ (s : appServer) (listenErr : Option NetError) (addr : String)
          (accepts : List AcceptRet), stopSteps (s.tcpEcho listenErr addr accepts).2.1 = [])
      ∧ (∀ (s : appServer) (listenErr : Option NetError) (addr : String) (reads : List UDPRead)
          (writes : List WriteRet),
          stopSteps (s.udpEcho l listenErr addr reads writes).2.1 = [])
      ∧ (∀ (addr : String) (reads : List ReadRet) (writes : List WriteRet),
          stopSteps (handleTCPConnection l addr reads writes) = [])
      ∧ sigintTask env c w = appServer.stop env c w
      ∧ ((c.udp.enabled = true → w.srv.udpConn = Sock.listening) →
          (c.tcp.enabled = true → w.srv.tcpListener = Sock.listening) →
          (appServer.stop env c (startWait w (some e)).1).2 = Go.ret ()
            ∧ transportsClosed c (appServer.stop env c (startWait w (some e)).1).1.srv = true
            ∧ (appServer.stop env c (startWait w (some e)).1).1.srv.idle = Chan.closed
            ∧ (startWait (appServer.stop env c (startWait w (some e)).1).1 none).2
                = MainEnd.returned) := by
  obtain ⟨hse, hsi, _⟩ := startSetup_frame c w0
  obtain ⟨t1, t2, t3, t4⟩ := tasks_make_no_stop_step c l
  have hw : startWait w (some e) = (w.emit [Event.logError e], MainEnd.waitingOnIdle) := by
    simp [startWait, printlnText, World.emit, hidle]
  refine ⟨hsi, hse, startSetup_steps c w0, hw, ?_, ?_, ?_, ?_, t1, t2, t3, t4, rfl, ?_⟩
  · rw [hw]; rfl
  · rw [hw]; rfl
  · rw [hw]; rfl
  · rw [hw]
    show stopSteps (w.emit [Event.logError e]).trace = stopSteps w.trace
    rw [stopSteps_emit]
    simp [stopSteps, Event.isStopStep]
  · intro hu ht
    rw [hw]
    have hudp : c.udp.enabled = true → (w.emit [Event.logError e]).srv.udpConn ≠ Sock.unset := by
      intro h
      show w.srv.udpConn ≠ Sock.unset
      rw [hu h]; decide
    obtain ⟨hr, _, hci, hh, hs, hcu, hct, _⟩ := stop_completes env c
      (w.emit [Event.logError e]) herrors hidle hudp
    refine ⟨hr, ?_, hci, ?_⟩
    · exact transportsClosed_of c _ hh hs (fun h => hcu h (hu h)) (fun h => hct h (ht h))
    · exact startWait_returns _ none hci

/-- Witness of `start_logs_listener_error_and_waits`: HTTP fails to bind while the TCP
echo listener is open; the main task blocks with the listener still open, and only `stop`
closes the transports. -/
theorem start_logs_listener_error_and_waits_witness :
    startWait listenerFailureWorld (some "listen tcp :80: bind: address already in use")
        = (listenerFailureWorld.emit
            [Event.logError "listen tcp :80: bind: address already in use"],
          MainEnd.waitingOnIdle)
      ∧ transportsClosed httpTcpConfig (appServer.stop quietEnv httpTcpConfig
          (startWait listenerFailureWorld
            (some "listen tcp :80: bind: address already in use")).1).1.srv = true := by
  obtain ⟨_, _, _, h4, _, _, _, _, _, _, _, _, _, h14⟩ :=
    start_logs_listener_error_and_waits httpTcpConfig zeroWorld listenerFailureWorld
      "listen tcp :80: bind: address already in use" quietEnv sampleLogger rfl rfl
  exact ⟨h4, (h14 (fun h => absurd h (by decide)) (fun _ => rfl)).2.1⟩

/-- C3 (as stated, refuted): HTTP and TCP echo are enabled; `start` has started its tasks,
the TCP task has bound its listener, and the HTTP task reports that it cannot bind.
`start` logs the error and blocks on `s.idle`; the TCP listener is still open, no
transport is closed, no step of the stop procedure has been made and `s.idle` is not
closed. -/
theorem start_does_not_stop_on_listener_error :
    sentOnErrors listenerFailureWorld.trace
        = [some "listen tcp :80: bind: address already in use"]
      ∧ (startWait listenerFailureWorld
          (some "listen tcp :80: bind: address already in use")).2 = MainEnd.waitingOnIdle
      ∧ transportsClosed httpTcpConfig (startWait listenerFailureWorld
          (some "listen tcp :80: bind: address already in use")).1.srv = false
      ∧ (startWait listenerFailureWorld
          (some "listen tcp :80: bind: address already in use")).1.srv.tcpListener
          = Sock.listening
      ∧ stopSteps (startWait listenerFailureWorld
          (some "listen tcp :80: bind: address already in use")).1.trace = []
      ∧ (startWait listenerFailureWorld
          (some "listen tcp :80: bind: address already in use")).1.srv.idle = Chan.ready := by
  decide

/-! ## Facts about `configuration.init` -/

theorem string_length_eq_zero (s : String) : s.length = 0 ↔ s = "" := by
  constructor
  · intro h
    apply String.ext
    exact List.length_eq_zero.mp h
  · rintro rfl
    rfl

theorem andThen_eq_next (s : InitStep) (f : InitState → InitStep) (st : InitState) :
    s.andThen f = .next st ↔ ∃ st', s = .next st' ∧ f st' = .next st := by
  cases s <;> simp [InitStep.andThen]

theorem finish_eq_nil (s : InitStep) (st : InitState) :
    s.finish = .returnedNil st ↔ s = .next st := by
  cases s <;> simp [InitStep.finish]

/-- A call of `init` that returns nil went through every block. -/
theorem init_nil_chain (os : OS) (c : configuration) (st : InitState)
    (h : c.init os = .returnedNil st) :
    ∃ st2 st3 st4 st5 st6,
      initAnyEnabled { c := c, calls := [] } = .next { c := c, calls := [] }
        ∧ initHTTP { c := c, calls := [] } = .next st2
        ∧ initHTTPS os st2 = .next st3 ∧ initTCP st3 = .next st4 ∧ initUDP st4 = .next st5
        ∧ initContentFile os st5 = .next st6 ∧ initContentType st6 = .next st := by
  rw [configuration.init, finish_eq_nil] at h
  obtain ⟨st6, h, h7⟩ := (andThen_eq_next _ _ _).mp h
  obtain ⟨st5, h, h6⟩ := (andThen_eq_next _ _ _).mp h
  obtain ⟨st4, h, h5⟩ := (andThen_eq_next _ _ _).mp h
  obtain ⟨st3, h, h4⟩ := (andThen_eq_next _ _ _).mp h
  obtain ⟨st2, h, h3⟩ := (andThen_eq_next _ _ _).mp h
  obtain ⟨st1, h1, h2⟩ := (andThen_eq_next _ _ _).mp h
  have h1' : st1 = { c := c, calls := [] } := by
    simp only [initAnyEnabled] at h1
    split at h1
    · exact absurd h1 (by simp)
    · exact (InitStep.next.inj h1).symm
  subst h1'
  exact ⟨st2, st3, st4, st5, st6, h1, h2, h3, h4, h5, h6, h7⟩

theorem initHTTP_next (st st' : InitState) (h : initHTTP st = .next st') :
    st'.c.content = st.c.content ∧ st'.c.https = st.c.https ∧ st'.c.server = st.c.server
      ∧ st'.calls = st.calls := by
  simp only [initHTTP] at h
  split at h
  · split at h
    · exact absurd h (by simp)
    · cases InitStep.next.inj h; exact ⟨rfl, rfl, rfl, rfl⟩
  · cases InitStep.next.inj h; exact ⟨rfl, rfl, rfl, rfl⟩

theorem initCertFile_next (os : OS) (st st' : InitState) (h : initCertFile os st = .next st') :
    st'.c = st.c := by
  simp only [initCertFile] at h
  split at h
  · exact absurd h (by simp)
  · split at h
    · exact absurd h (by simp)
    · split at h
      · exact absurd h (by simp)
      · cases InitStep.next.inj h; rfl

theorem initKeyFile_next (os : OS) (st st' : InitState) (h : initKeyFile os st = .next st') :
    st'.c = st.c := by
  simp only [initKeyFile] at h
  split at h
  · exact absurd h (by simp)
  · split at h
    · exact absurd h (by simp)
    · split at h
      · exact absurd h (by simp)
      · cases InitStep.next.inj h; rfl

theorem initHTTPS_next_content (os : OS) (st st' : InitState)
    (h : initHTTPS os st = .next st') : st'.c.content = st.c.content := by
  simp only [initHTTPS] at h
  split at h
  · split at h
    · exact absurd h (by simp)
    · split at h
      · split at h
        · exact absurd h (by simp)
        · cases InitStep.next.inj h; rfl
      · obtain ⟨st1, h1, h2⟩ := (andThen_eq_next _ _ _).mp h
        rw [initKeyFile_next os _ _ h2, initCertFile_next os _ _ h1]
  · cases InitStep.next.inj h; rfl

theorem initTCP_next (st st' : InitState) (h : initTCP st = .next st') :
    st'.c.content = st.c.content ∧ st'.c.https = st.c.https ∧ st'.calls = st.calls := by
  simp only [initTCP] at h
  split at h
  · split at h
    · exact absurd h (by simp)
    · cases InitStep.next.inj h; exact ⟨rfl, rfl, rfl⟩
  · cases InitStep.next.inj h; exact ⟨rfl, rfl, rfl⟩

theorem initUDP_next (st st' : InitState) (h : initUDP st = .next st') :
    st'.c.content = st.c.content ∧ st'.c.https = st.c.https ∧ st'.calls = st.calls := by
  simp only [initUDP] at h
  split at h
  · split at h
    · exact absurd h (by simp)
    · cases InitStep.next.inj h; exact ⟨rfl, rfl, rfl⟩
  · cases InitStep.next.inj h; exact ⟨rfl, rfl, rfl⟩

theorem initContentFile_none (os : OS) (st : InitState) (hfile : st.c.content.file = "") :
    initContentFile os st = .next st := by
  simp [initContentFile, hfile]

theorem initContentType_next (st st' : InitState) (h : initContentType st = .next st') :
    st'.c.content.content = st.c.content.content
      ∧ st'.c.content.contentType = st.c.content.contentType
      ∧ st'.c.content.addContentType
          = (st.c.content.addContentType || decide (st.c.content.contentType ≠ ""))
      ∧ st'.c.https = st.c.https ∧ st'.calls = st.calls := by
  simp only [initContentType] at h
  by_cases ht : st.c.content.contentType = ""
  · have h0 : ¬ st.c.content.contentType.length > 0 := by rw [ht]; decide
    rw [if_neg h0] at h
    cases InitStep.next.inj h
    simp [ht]
  · have hpos : st.c.content.contentType.length > 0 :=
      Nat.pos_of_ne_zero (fun h0 => ht ((string_length_eq_zero _).mp h0))
    rw [if_pos hpos] at h
    cases InitStep.next.inj h
    simp [ht]

/-- C6: the HTTP content contract.  Let `init` return nil on a configuration with no
content file whose `addContentType` is still false (its value when the program starts;
nothing but `init` writes it).  Then the handler registered for the pattern `/`, with or
without request logging, appends exactly the octets of the configured body to the
response; when the configured content type is not empty it sets the `Content-Type`
header to that one value, and when it is empty it leaves the header map untouched. -/
theorem root_handler_content (os : OS) (c : configuration) (st : InitState) (l : logger)
    (marshal : Header → Except String String) (req : Request) (w : ResponseWriter)
    (hfile : c.content.file = "") (hadd : c.content.addContentType = false)
    (hinit : c.init os = .returnedNil st) :
    ∃ h, registered (handleFunctions st.c l marshal) "/" = some h
      ∧ (h req w).1.body = w.body ++ bytesOf c.content.content
      ∧ (c.content.contentType ≠ "" →
          (h req w).1.header = w.header.Set "Content-Type" c.content.contentType
            ∧ (h req w).1.header.values "Content-Type" = some [c.content.contentType])
      ∧ (c.content.contentType = "" → (h req w).1.header = w.header) := by
  obtain ⟨st2, st3, st4, st5, st6, _, h2, h3, h4, h5, h6, h7⟩ := init_nil_chain os c st hinit
  have e2 := (initHTTP_next _ _ h2).1
  have e3 := initHTTPS_next_content os _ _ h3
  have e4 := (initTCP_next _ _ h4).1
  have e5 := (initUDP_next _ _ h5).1
  have e25 : st5.c.content = c.content := by rw [e5, e4, e3, e2]
  have h6' := initContentFile_none os st5 (by rw [e25]; exact hfile)
  rw [h6'] at h6
  cases InitStep.next.inj h6
  obtain ⟨hc, ht, ha, _⟩ := initContentType_next _ _ h7
  rw [e25] at hc ht ha
  rw [hadd] at ha
  refine ⟨l.request (rootHandler st.c), by simp [registered, handleFunctions, List.lookup], ?_⟩
  have hbody : ∀ x : ResponseWriter × List Event,
      x = rootHandler st.c req w → (l.request (rootHandler st.c) req w).1 = x.1 := by
    intro x hx
    unfold logger.request
    split <;> simp [hx]
  rw [hbody _ rfl]
  by_cases hty : c.content.contentType = ""
  · have hfalse : st.c.content.addContentType = false := by simp [ha, hty]
    simp [rootHandler, hfalse, hc, hty, ResponseWriter.Write]
  · have htrue : st.c.content.addContentType = true := by simp [ha, hty]
    simp [rootHandler, htrue, hc, ht, hty, ResponseWriter.Write, Header.Set, Header.values,
      List.lookup]

/-- Witness of `root_handler_content` (the instance named in the claim): the body "pong"
with content type "text/plain" on the HTTP transport yields the body `pong` and the one
header value `text/plain`. -/
theorem root_handler_content_witness :
    ∃ h, registered (handleFunctions (pongConfig.init quietOS).cfg sampleLogger
        (fun _ => Except.ok "")) "/" = some h
      ∧ (h sampleRequest ResponseWriter.fresh).1.body = [112, 111, 110, 103]
      ∧ (h sampleRequest ResponseWriter.fresh).1.header.values "Content-Type"
          = some ["text/plain"] := by
  obtain ⟨h, hreg, hbody, hty, _⟩ := root_handler_content quietOS pongConfig
    (pongConfig.init quietOS).state sampleLogger (fun _ => Except.ok "") sampleRequest
    ResponseWriter.fresh rfl rfl rfl
  exact ⟨h, hreg, hbody, (hty (by decide)).2⟩

theorem fileExists_of_not_fails (os : OS) (p : String) (h : statFails os p = false) :
    fileExists os.stat p = Go.ret (statIsFile os p) := by
  unfold statFails at h
  unfold fileExists statIsFile
  cases hs : os.stat p with
  | found info => simp [StatRet.IsNotExist]
  | failed e =>
    cases e with
    | notExist => simp [StatRet.IsNotExist]
    | failure msg => simp [hs] at h

theorem fileExists_true_iff (os : OS) (p : String) :
    fileExists os.stat p = Go.ret true ↔ statIsFile os p = true := by
  unfold fileExists statIsFile
  cases hs : os.stat p with
  | found info => simp [StatRet.IsNotExist]
  | failed e => cases e <;> simp [StatRet.IsNotExist]

theorem init_split (os : OS) (c : configuration) :
    c.init os = initAfterHTTPS os
      (((initAnyEnabled { c := c, calls := [] }).andThen initHTTP).andThen (initHTTPS os)) :=
  rfl

theorem andThen_state_frame {α : Type} (g : InitState → α) (s : InitStep)
    (f : InitState → InitStep) (hf : ∀ st, g (f st).state = g st) :
    g (s.andThen f).state = g s.state := by
  cases s with
  | next st => exact hf st
  | returnErr st e => rfl
  | panicked st m => rfl

theorem finish_state (s : InitStep) : s.finish.state = s.state := by
  cases s <;> rfl

theorem generateCertCalls_append_other (calls : List InitCall) (x : InitCall)
    (hx : x ≠ InitCall.generateCert) :
    generateCertCalls (calls ++ [x]) = generateCertCalls calls := by
  have h : (x == InitCall.generateCert) = false := by simpa using hx
  simp [generateCertCalls, List.count_append, List.count_cons, h]

theorem initTCP_frame (st : InitState) :
    (initTCP st).state.c.https = st.c.https ∧ (initTCP st).state.calls = st.calls := by
  simp only [initTCP]
  split
  · split <;> exact ⟨rfl, rfl⟩
  · exact ⟨rfl, rfl⟩

theorem initUDP_frame (st : InitState) :
    (initUDP st).state.c.https = st.c.https ∧ (initUDP st).state.calls = st.calls := by
  simp only [initUDP]
  split
  · split <;> exact ⟨rfl, rfl⟩
  · exact ⟨rfl, rfl⟩

theorem initContentType_frame (st : InitState) :
    (initContentType st).state.c.https = st.c.https
      ∧ (initContentType st).state.calls = st.calls := by
  simp only [initContentType]
  split <;> exact ⟨rfl, rfl⟩

theorem initContentFile_frame (os : OS) (st : InitState) :
    (initContentFile os st).state.c.https = st.c.https
      ∧ generateCertCalls (initContentFile os st).state.calls = generateCertCalls st.calls := by
  have h1 := generateCertCalls_append_other st.calls (InitCall.fileExists st.c.content.file)
    (by simp)
  have h2 := generateCertCalls_append_other
    (st.calls ++ [InitCall.fileExists st.c.content.file]) (InitCall.readFile st.c.content.file)
    (by simp)
  simp only [initContentFile]
  split
  · split
    · exact ⟨rfl, h1⟩
    · split
      · exact ⟨rfl, h1⟩
      · split
        · exact ⟨rfl, by simp only [InitStep.state]; rw [h2, h1]⟩
        · exact ⟨rfl, by simp only [InitStep.state]; rw [h2, h1]⟩
  · exact ⟨rfl, rfl⟩

/-- The blocks after the HTTPS block leave the `https` section alone and never call
`generateCert`; an error or a panic of the HTTPS block is the result of `init`. -/
theorem initAfterHTTPS_frame (os : OS) (s : InitStep) :
    (initAfterHTTPS os s).state.c.https = s.state.c.https
      ∧ generateCertCalls (initAfterHTTPS os s).state.calls = generateCertCalls s.state.calls
      ∧ (∀ st e, s = .returnErr st e → initAfterHTTPS os s = .returnedErr st e)
      ∧ (∀ st m, s = .panicked st m → initAfterHTTPS os s = .panicked st m)
      ∧ (∀ st, initAfterHTTPS os s = .returnedNil st → ∃ st3, s = .next st3
          ∧ st.c.https = st3.c.https) := by
  have hg : (initAfterHTTPS os s).state.c.https = s.state.c.https := by
    unfold initAfterHTTPS
    rw [finish_state,
      andThen_state_frame (fun st => st.c.https) _ _ (fun st => (initContentType_frame st).1),
      andThen_state_frame (fun st => st.c.https) _ _
        (fun st => (initContentFile_frame os st).1),
      andThen_state_frame (fun st => st.c.https) _ _ (fun st => (initUDP_frame st).1),
      andThen_state_frame (fun st => st.c.https) _ _ (fun st => (initTCP_frame st).1)]
  refine ⟨hg, ?_, ?_, ?_, ?_⟩
  · unfold initAfterHTTPS
    rw [finish_state,
      andThen_state_frame (fun st => generateCertCalls st.calls) _ _
        (fun st => congrArg generateCertCalls (initContentType_frame st).2),
      andThen_state_frame (fun st => generateCertCalls st.calls) _ _
        (fun st => (initContentFile_frame os st).2),
      andThen_state_frame (fun st => generateCertCalls st.calls) _ _
        (fun st => congrArg generateCertCalls (initUDP_frame st).2),
      andThen_state_frame (fun st => generateCertCalls st.calls) _ _
        (fun st => congrArg generateCertCalls (initTCP_frame st).2)]
  · rintro st e rfl; rfl
  · rintro st m rfl; rfl
  · intro st h
    cases s with
    | next st3 =>
      refine ⟨st3, rfl, ?_⟩
      have := hg
      rw [h] at this
      exact this
    | returnErr st3 e => exact absurd h (by simp [initAfterHTTPS, InitStep.andThen, InitStep.finish])
    | panicked st3 m => exact absurd h (by simp [initAfterHTTPS, InitStep.andThen, InitStep.finish])

theorem length_beq_zero (s : String) : (s.length == 0) = decide (s = "") := by
  by_cases h : s = ""
  · subst h; rfl
  · have h0 : s.length ≠ 0 := fun h0 => h ((string_length_eq_zero s).mp h0)
    simp [h, h0]

theorem init_before_HTTPS (c : configuration) (hen : c.https.enabled = true)
    (hhttp : c.http.enabled = true → isValidPort c.http.port = true) :
    ∃ st2, (initAnyEnabled { c := c, calls := [] }).andThen initHTTP = .next st2
      ∧ st2.c.https = c.https ∧ st2.c.server = c.server ∧ st2.calls = [] := by
  have h1 : initAnyEnabled { c := c, calls := [] } = .next { c := c, calls := [] } := by
    simp [initAnyEnabled, hen]
  rw [h1]
  simp only [InitStep.andThen, initHTTP]
  by_cases hh : c.http.enabled = true
  · simp only [hh, if_true, hhttp hh, Bool.not_true, Bool.false_eq_true, if_false]
    exact ⟨_, rfl, rfl, rfl, rfl⟩
  · simp only [hh, if_false]
    exact ⟨_, rfl, rfl, rfl, rfl⟩

theorem initHTTPS_generate (os : OS) (st : InitState) (hen : st.c.https.enabled = true)
    (hport : isValidPort st.c.https.port = true) (hc : st.c.https.cert = "")
    (hk : st.c.https.key = "") :
    generateCertCalls (initHTTPS os st).state.calls = generateCertCalls st.calls + 1
      ∧ (∀ crt k, os.generateCert = .ok (crt, k) → ∃ st3, initHTTPS os st = .next st3
          ∧ st3.c.https.autoCert = true ∧ st3.c.https.cert = crt ∧ st3.c.https.key = k)
      ∧ (∀ e, os.generateCert = .error e → ∃ st3, initHTTPS os st = .returnErr st3 e) := by
  have hcount : generateCertCalls (st.calls ++ [InitCall.generateCert])
      = generateCertCalls st.calls + 1 := by
    simp [generateCertCalls, List.count_append]
  simp only [initHTTPS, hen, if_true, hport, Bool.not_true, Bool.false_eq_true, if_false,
    length_beq_zero, hc, hk, decide_True, Bool.and_self]
  cases hg : os.generateCert with
  | error e =>
    refine ⟨hcount, fun crt k h => ?_, fun e' h => ?_⟩
    · exact absurd h (by simp)
    · cases h; exact ⟨_, rfl⟩
  | ok p =>
    obtain ⟨crt, k⟩ := p
    refine ⟨hcount, fun crt' k' h => ?_, fun e' h => ?_⟩
    · cases h; exact ⟨_, rfl, rfl, rfl, rfl⟩
    · exact absurd h (by simp)

theorem initCertFile_cases (os : OS) (st : InitState) :
    (st.c.https.cert = "" → ∃ e, initCertFile os st = .returnErr st e)
      ∧ (st.c.https.cert ≠ "" → statFails os st.c.https.cert = false →
          statIsFile os st.c.https.cert = false → ∃ st' e, initCertFile os st = .returnErr st' e)
      ∧ (st.c.https.cert ≠ "" → statIsFile os st.c.https.cert = true →
          ∃ st', initCertFile os st = .next st' ∧ st'.c = st.c)
      ∧ (∀ st', initCertFile os st = .next st' →
          statIsFile os st.c.https.cert = true ∧ st'.c = st.c) := by
  refine ⟨fun h => ?_, fun h hf hn => ?_, fun h hy => ?_, fun st' h => ?_⟩
  · simp [initCertFile, h]
  · simp [initCertFile, length_beq_zero, h, fileExists_of_not_fails os _ hf, hn]
  · simp [initCertFile, length_beq_zero, h, (fileExists_true_iff os _).mpr hy]
  · simp only [initCertFile, length_beq_zero] at h
    split at h
    · exact absurd h (by simp)
    · split at h
      · exact absurd h (by simp)
      · rename_i found hfe
        split at h
        · exact absurd h (by simp)
        · rename_i hfound
          have hft : found = true := by simpa using hfound
          subst hft
          cases InitStep.next.inj h
          exact ⟨(fileExists_true_iff os _).mp hfe, rfl⟩

theorem initKeyFile_cases (os : OS) (st : InitState) :
    (st.c.https.key = "" → ∃ e, initKeyFile os st = .returnErr st e)
      ∧ (st.c.https.key ≠ "" → statFails os st.c.https.key = false →
          statIsFile os st.c.https.key = false → ∃ st' e, initKeyFile os st = .returnErr st' e)
      ∧ (st.c.https.key ≠ "" → statIsFile os st.c.https.key = true →
          ∃ st', initKeyFile os st = .next st' ∧ st'.c = st.c)
      ∧ (∀ st', initKeyFile os st = .next st' →
          statIsFile os st.c.https.key = true ∧ st'.c = st.c) := by
  refine ⟨fun h => ?_, fun h hf hn => ?_, fun h hy => ?_, fun st' h => ?_⟩
  · simp [initKeyFile, h]
  · simp [initKeyFile, length_beq_zero, h, fileExists_of_not_fails os _ hf, hn]
  · simp [initKeyFile, length_beq_zero, h, (fileExists_true_iff os _).mpr hy]
  · simp only [initKeyFile, length_beq_zero] at h
    split at h
    · exact absurd h (by simp)
    · split at h
      · exact absurd h (by simp)
      · rename_i found hfe
        split at h
        · exact absurd h (by simp)
        · rename_i hfound
          have hft : found = true := by simpa using hfound
          subst hft
          cases InitStep.next.inj h
          exact ⟨(fileExists_true_iff os _).mp hfe, rfl⟩

theorem initHTTPS_paths (os : OS) (st : InitState) (hen : st.c.https.enabled = true)
    (hport : isValidPort st.c.https.port = true)
    (hne : ¬ (st.c.https.cert = "" ∧ st.c.https.key = "")) :
    ∃ st', st'.c.https.cert = st.c.https.cert ∧ st'.c.https.key = st.c.https.key
      ∧ st'.c.https.autoCert = st.c.https.autoCert ∧ st'.c.tcp = st.c.tcp
      ∧ st'.c.udp = st.c.udp
      ∧ initHTTPS os st = (initCertFile os st').andThen (initKeyFile os) := by
  have hboth : (decide (st.c.https.cert = "") && decide (st.c.https.key = "")) = false := by
    by_cases h1 : st.c.https.cert = ""
    · by_cases h2 : st.c.https.key = ""
      · exact absurd ⟨h1, h2⟩ hne
      · simp [h2]
    · simp [h1]
  refine ⟨{ st with c := { st.c with https := { st.c.https with
    address := JoinHostPort st.c.server.host (Itoa st.c.https.port) } } }, rfl, rfl, rfl, rfl,
    rfl, ?_⟩
  simp only [initHTTPS, hen, if_true, hport, Bool.not_true, Bool.false_eq_true, if_false,
    length_beq_zero, hboth]

theorem initHTTPS_files (os : OS) (st : InitState) (hen : st.c.https.enabled = true)
    (hport : isValidPort st.c.https.port = true)
    (hne : ¬ (st.c.https.cert = "" ∧ st.c.https.key = "")) :
    (st.c.https.cert = "" → ∃ st3 e, initHTTPS os st = .returnErr st3 e)
      ∧ (st.c.https.cert ≠ "" → st.c.https.key = "" → statFails os st.c.https.cert = false →
          ∃ st3 e, initHTTPS os st = .returnErr st3 e)
      ∧ (st.c.https.cert ≠ "" → st.c.https.key ≠ "" → statFails os st.c.https.cert = false →
          statFails os st.c.https.key = false →
          ¬ (statIsFile os st.c.https.cert = true ∧ statIsFile os st.c.https.key = true) →
          ∃ st3 e, initHTTPS os st = .returnErr st3 e)
      ∧ (∀ st3, initHTTPS os st = .next st3 →
          statIsFile os st.c.https.cert = true ∧ statIsFile os st.c.https.key = true
            ∧ st3.c.https.autoCert = st.c.https.autoCert ∧ st3.c.https.cert = st.c.https.cert
            ∧ st3.c.https.key = st.c.https.key) := by
  obtain ⟨st', hc', hk', ha', _, _, hX⟩ := initHTTPS_paths os st hen hport hne
  obtain ⟨c1, c2, c3, c4⟩ := initCertFile_cases os st'
  rw [hc'] at c1 c2 c3 c4
  refine ⟨fun h => ?_, fun h hk hf => ?_, fun h hk hf hfk hn => ?_, fun st3 h => ?_⟩
  · obtain ⟨e, he⟩ := c1 h
    exact ⟨st', e, by rw [hX, he]; rfl⟩
  · by_cases hy : statIsFile os st.c.https.cert = true
    · obtain ⟨st'', hn, hcfg⟩ := c3 h hy
      obtain ⟨e, he⟩ := (initKeyFile_cases os st'').1 (by rw [hcfg, hk', hk])
      exact ⟨st'', e, by rw [hX, hn]; exact he⟩
    · obtain ⟨st'', e, he⟩ := c2 h hf (by simpa using hy)
      exact ⟨st'', e, by rw [hX, he]; rfl⟩
  · by_cases hy : statIsFile os st.c.https.cert = true
    · obtain ⟨st'', hnx, hcfg⟩ := c3 h hy
      have hky : statIsFile os st.c.https.key = false := by
        cases hv : statIsFile os st.c.https.key
        · rfl
        · exact absurd ⟨hy, hv⟩ hn
      have hkeq : st''.c.https.key = st.c.https.key := by rw [hcfg, hk']
      obtain ⟨st3, e, he⟩ := (initKeyFile_cases os st'').2.1 (by rw [hkeq]; exact hk)
        (by rw [hkeq]; exact hfk) (by rw [hkeq]; exact hky)
      exact ⟨st3, e, by rw [hX, hnx]; exact he⟩
    · obtain ⟨st'', e, he⟩ := c2 h hf (by simpa using hy)
      exact ⟨st'', e, by rw [hX, he]; rfl⟩
  · rw [hX] at h
    obtain ⟨st'', hnx, hkx⟩ := (andThen_eq_next _ _ _).mp h
    obtain ⟨hy, hcfg⟩ := c4 st'' hnx
    obtain ⟨hyk, hcfg3⟩ := (initKeyFile_cases os st'').2.2.2 st3 hkx
    rw [hcfg, hk'] at hyk
    exact ⟨hy, hyk, by rw [hcfg3, hcfg, ha'], by rw [hcfg3, hcfg, hc'], by rw [hcfg3, hcfg, hk']⟩

theorem initAfterHTTPS_isError (os : OS) (s : InitStep) (h : ∃ st e, s = .returnErr st e) :
    (initAfterHTTPS os s).isError = true := by
  obtain ⟨st, e, rfl⟩ := h
  rfl

/-- C8 (amended): validation of the HTTPS certificate and key by `init`, for a
configuration with HTTPS enabled and valid HTTP and HTTPS ports.  (a) With both paths
empty, `generateCert` is called exactly once; when it succeeds, `autoCert` is set and the
two paths are the generated ones; when it fails, `init` returns its error.  (b) With the
certificate path empty and the key path not, `init` returns an error; with the key path
empty and the certificate path not, `init` returns an error provided `os.Stat` of the
certificate path succeeds or reports not-exist.  (c) With both paths not empty and
`os.Stat` of each succeeding or reporting not-exist, `init` returns an error unless both
name existing entries that are not directories; and whenever `init` returns nil, both do,
and `autoCert` and the two paths are unchanged. -/
theorem init_https_certificate (os : OS) (c : configuration)
    (hen : c.https.enabled = true) (hport : isValidPort c.https.port = true)
    (hhttp : c.http.enabled = true → isValidPort c.http.port = true) :
    (c.https.cert = "" → c.https.key = "" →
        generateCertCalls (c.init os).state.calls = 1
          ∧ (∀ crt k, os.generateCert = .ok (crt, k) →
              (c.init os).cfg.https.autoCert = true ∧ (c.init os).cfg.https.cert = crt
                ∧ (c.init os).cfg.https.key = k)
          ∧ (∀ e, os.generateCert = .error e → ∃ st, c.init os = .returnedErr st e))
      ∧ (c.https.cert = "" → c.https.key ≠ "" → (c.init os).isError = true)
      ∧ (c.https.cert ≠ "" → c.https.key = "" → statFails os c.https.cert = false →
          (c.init os).isError = true)
      ∧ (c.https.cert ≠ "" → c.https.key ≠ "" → statFails os c.https.cert = false →
          statFails os c.https.key = false →
          ¬ (statIsFile os c.https.cert = true ∧ statIsFile os c.https.key = true) →
          (c.init os).isError = true)
      ∧ (c.https.cert ≠ "" → c.https.key ≠ "" → (c.init os).isNil = true →
          statIsFile os c.https.cert = true ∧ statIsFile os c.https.key = true
            ∧ (c.init os).cfg.https.autoCert = c.https.autoCert
            ∧ (c.init os).cfg.https.cert = c.https.cert
            ∧ (c.init os).cfg.https.key = c.https.key) := by
  obtain ⟨st2, h12, hh, _, hcalls⟩ := init_before_HTTPS c hen hhttp
  have hinit : c.init os = initAfterHTTPS os (initHTTPS os st2) := by
    rw [init_split, h12]; rfl
  obtain ⟨f1, f2, f3, _, f5⟩ := initAfterHTTPS_frame os (initHTTPS os st2)
  have hen2 : st2.c.https.enabled = true := by rw [hh]; exact hen
  have hport2 : isValidPort st2.c.https.port = true := by rw [hh]; exact hport
  rw [hinit]
  refine ⟨fun hc hk => ?_, fun hc hk => ?_, fun hc hk hf => ?_, fun hc hk hf hfk hn => ?_,
    fun hc hk hnil => ?_⟩
  · obtain ⟨g1, g2, g3⟩ := initHTTPS_generate os st2 hen2 hport2 (by rw [hh]; exact hc)
      (by rw [hh]; exact hk)
    refine ⟨?_, fun crt k hg => ?_, fun e hg => ?_⟩
    · rw [f2, g1, hcalls]; rfl
    · obtain ⟨st3, hn, ha, hcr, hky⟩ := g2 crt k hg
      simp only [InitRun.cfg]
      rw [f1, hn]
      exact ⟨ha, hcr, hky⟩
    · obtain ⟨st3, hr⟩ := g3 e hg
      exact ⟨st3, f3 st3 e hr⟩
  · have hne : ¬ (st2.c.https.cert = "" ∧ st2.c.https.key = "") := by
      rw [hh]; exact fun h => hk h.2
    exact initAfterHTTPS_isError os _
      ((initHTTPS_files os st2 hen2 hport2 hne).1 (by rw [hh]; exact hc))
  · have hne : ¬ (st2.c.https.cert = "" ∧ st2.c.https.key = "") := by
      rw [hh]; exact fun h => hc h.1
    exact initAfterHTTPS_isError os _
      ((initHTTPS_files os st2 hen2 hport2 hne).2.1 (by rw [hh]; exact hc)
        (by rw [hh]; exact hk) (by rw [hh]; exact hf))
  · have hne : ¬ (st2.c.https.cert = "" ∧ st2.c.https.key = "") := by
      rw [hh]; exact fun h => hc h.1
    exact initAfterHTTPS_isError os _
      ((initHTTPS_files os st2 hen2 hport2 hne).2.2.1 (by rw [hh]; exact hc)
        (by rw [hh]; exact hk) (by rw [hh]; exact hf) (by rw [hh]; exact hfk)
        (by rw [hh]; exact hn))
  · have hne : ¬ (st2.c.https.cert = "" ∧ st2.c.https.key = "") := by
      rw [hh]; exact fun h => hc h.1
    cases hres : initAfterHTTPS os (initHTTPS os st2) with
    | returnedErr st e => rw [hres] at hnil; exact absurd hnil (by simp [InitRun.isNil])
    | panicked st m => rw [hres] at hnil; exact absurd hnil (by simp [InitRun.isNil])
    | returnedNil st =>
      obtain ⟨st3, hn, hfr⟩ := f5 st hres
      obtain ⟨y1, y2, y3, y4, y5⟩ := (initHTTPS_files os st2 hen2 hport2 hne).2.2.2 st3 hn
      rw [hh] at y1 y2 y3 y4 y5
      simp only [InitRun.cfg, InitRun.state]
      rw [hfr]
      exact ⟨y1, y2, y3, y4, y5⟩

/-- Witness of `init_https_certificate`: HTTPS enabled with no certificate or key; the
generated pair is taken and `autoCert` is set. -/
theorem init_https_certificate_witness :
    (httpsConfig.init quietOS).cfg.https.autoCert = true
      ∧ (httpsConfig.init quietOS).cfg.https.cert = "/tmp/server_crt_1"
      ∧ (httpsConfig.init quietOS).cfg.https.key = "/tmp/server_key_1" :=
  ((init_https_certificate quietOS httpsConfig rfl rfl
    (fun h => by simp [httpsConfig, defaultConfig] at h)).1 rfl rfl).2.1
      "/tmp/server_crt_1" "/tmp/server_key_1" rfl

/-- C8 (as stated, refuted): with both paths naming character devices, which are not
regular files, `init` returns nil; and with the key path empty and a certificate path on
which `os.Stat` fails with "not a directory", `init` does not return an error: it
panics. -/
theorem init_https_accepts_device_and_panics :
    deviceOS.stat deviceCertConfig.https.cert = StatRet.found FileMode.irregular
      ∧ deviceOS.stat deviceCertConfig.https.key = StatRet.found FileMode.irregular
      ∧ (deviceCertConfig.init deviceOS).isNil = true
      ∧ (deviceCertConfig.init deviceOS).isError = false
      ∧ (certOnlyConfig.init notDirOS).isError = false
      ∧ (certOnlyConfig.init notDirOS).isPanic = true := by
  refine ⟨?_, ?_, ?_, ?_, ?_, ?_⟩ <;> decide

/-- C7 (the code at the failing input): HTTPS is enabled on a valid port with a
certificate path on which `os.Stat` fails with "not a directory", and TCP echo is enabled
on the port 70000, which is not a valid port.  `init` does not return an error: it
panics in `fileExists`, before the TCP block is reached. -/
theorem init_panics_before_port_check :
    badPortConfig.tcp.enabled = true ∧ isValidPort badPortConfig.tcp.port = false
      ∧ (badPortConfig.init notDirOS).isError = false
      ∧ (badPortConfig.init notDirOS).isPanic = true := by
  refine ⟨?_, ?_, ?_, ?_⟩ <;> decide

/-! ## Port validation, apart from the panic of `fileExists` -/

/-- `isValidPort` accepts exactly the ports 0 to 65535. -/
theorem isValidPort_iff (p : Int) : isValidPort p = true ↔ 0 ≤ p ∧ p ≤ 65535 := by
  unfold isValidPort
  by_cases h1 : p < 0
  · simp only [h1, decide_True, Bool.true_or, if_true, Bool.false_eq_true, false_iff]
    omega
  · by_cases h2 : p > 65535
    · simp only [h2, decide_True, Bool.or_true, if_true, Bool.false_eq_true, false_iff]
      omega
    · simp only [h1, h2, decide_False, Bool.or_self, Bool.false_eq_true, if_false, true_iff]
      omega

theorem initHTTP_total (st : InitState) :
    (∃ e, initHTTP st = .returnErr st e)
      ∨ (∃ st', initHTTP st = .next st' ∧ st'.c.https = st.c.https ∧ st'.c.tcp = st.c.tcp
          ∧ st'.c.udp = st.c.udp
          ∧ (st.c.http.enabled = true → isValidPort st.c.http.port = true)) := by
  by_cases hh : st.c.http.enabled = true
  · by_cases hp : isValidPort st.c.http.port = true
    · refine Or.inr ⟨{ st with c := { st.c with http := { st.c.http with
        address := JoinHostPort st.c.server.host (Itoa st.c.http.port) } } }, ?_, rfl, rfl, rfl,
        fun _ => hp⟩
      simp only [initHTTP, hh, if_true, hp, Bool.not_true, Bool.false_eq_true, if_false]
    · have hp' : isValidPort st.c.http.port = false := by simpa using hp
      exact Or.inl (by simp [initHTTP, hh, hp'])
  · exact Or.inr ⟨st, by simp only [initHTTP, hh, Bool.false_eq_true, if_false], rfl, rfl, rfl,
      fun h => absurd h hh⟩

theorem initHTTPS_total (os : OS) (st : InitState) (hstat : ∀ p, statFails os p = false) :
    (∃ st' e, initHTTPS os st = .returnErr st' e)
      ∨ (∃ st', initHTTPS os st = .next st' ∧ st'.c.tcp = st.c.tcp ∧ st'.c.udp = st.c.udp
          ∧ (st.c.https.enabled = true → isValidPort st.c.https.port = true)) := by
  by_cases hen : st.c.https.enabled = true
  · by_cases hp : isValidPort st.c.https.port = true
    · by_cases hboth : st.c.https.cert = "" ∧ st.c.https.key = ""
      · cases hg : os.generateCert with
        | error e =>
          exact Or.inl ((initHTTPS_generate os st hen hp hboth.1 hboth.2).2.2 e hg
            |>.elim fun st3 h => ⟨st3, e, h⟩)
        | ok p =>
          obtain ⟨crt, k⟩ := p
          refine Or.inr ⟨{ st with
            c := { st.c with https := { st.c.https with
              address := JoinHostPort st.c.server.host (Itoa st.c.https.port),
              autoCert := true, cert := crt, key := k } },
            calls := st.calls ++ [InitCall.generateCert] }, ?_, rfl, rfl, fun _ => hp⟩
          simp only [initHTTPS, hen, if_true, hp, Bool.not_true, Bool.false_eq_true, if_false,
            length_beq_zero, hboth.1, hboth.2, decide_True, Bool.and_self, hg]
      · obtain ⟨a1, a2, a3, a4⟩ := initHTTPS_files os st hen hp hboth
        by_cases hc : st.c.https.cert = ""
        · exact Or.inl (a1 hc)
        · by_cases hk : st.c.https.key = ""
          · exact Or.inl (a2 hc hk (hstat _))
          · by_cases hy : statIsFile os st.c.https.cert = true
                ∧ statIsFile os st.c.https.key = true
            · obtain ⟨st0, e1, e2, _, e4, e5, hX⟩ := initHTTPS_paths os st hen hp hboth
              obtain ⟨st1, hn1, hc1⟩ := (initCertFile_cases os st0).2.2.1
                (by rw [e1]; exact hc) (by rw [e1]; exact hy.1)
              obtain ⟨st2, hn2, hc2⟩ := (initKeyFile_cases os st1).2.2.1
                (by rw [hc1, e2]; exact hk) (by rw [hc1, e2]; exact hy.2)
              exact Or.inr ⟨st2, by rw [hX, hn1]; exact hn2, by rw [hc2, hc1, e4],
                by rw [hc2, hc1, e5], fun _ => hp⟩
            · exact Or.inl (a3 hc hk (hstat _) (hstat _) hy)
    · have hp' : isValidPort st.c.https.port = false := by simpa using hp
      exact Or.inl ⟨st, "invalid HTTPS port number: " ++ toString st.c.https.port,
        by simp only [initHTTPS, hen, if_true, hp', Bool.not_false]⟩
  · exact Or.inr ⟨st, by simp only [initHTTPS, hen, Bool.false_eq_true, if_false], rfl, rfl,
      fun h => absurd h hen⟩

theorem initTCP_total (st : InitState) :
    (∃ e, initTCP st = .returnErr st e)
      ∨ (∃ st', initTCP st = .next st' ∧ st'.c.udp = st.c.udp
          ∧ (st.c.tcp.enabled = true → isValidPort st.c.tcp.port = true)) := by
  by_cases hh : st.c.tcp.enabled = true
  · by_cases hp : isValidPort st.c.tcp.port = true
    · refine Or.inr ⟨{ st with c := { st.c with tcp := { st.c.tcp with
        address := { Port := st.c.tcp.port, IP := st.c.server.host } } } }, ?_, rfl, fun _ => hp⟩
      simp only [initTCP, hh, if_true, hp, Bool.not_true, Bool.false_eq_true, if_false]
    · have hp' : isValidPort st.c.tcp.port = false := by simpa using hp
      exact Or.inl (by simp [initTCP, hh, hp'])
  · exact Or.inr ⟨st, by simp only [initTCP, hh, Bool.false_eq_true, if_false], rfl,
      fun h => absurd h hh⟩

theorem initUDP_total (st : InitState) :
    (∃ e, initUDP st = .returnErr st e)
      ∨ (∃ st', initUDP st = .next st'
          ∧ (st.c.udp.enabled = true → isValidPort st.c.udp.port = true)) := by
  by_cases hh : st.c.udp.enabled = true
  · by_cases hp : isValidPort st.c.udp.port = true
    · refine Or.inr ⟨{ st with c := { st.c with udp := { st.c.udp with
        address := { Port := st.c.udp.port, IP := st.c.server.host } } } }, ?_, fun _ => hp⟩
      simp only [initUDP, hh, if_true, hp, Bool.not_true, Bool.false_eq_true, if_false]
    · have hp' : isValidPort st.c.udp.port = false := by simpa using hp
      exact Or.inl (by simp [initUDP, hh, hp'])
  · exact Or.inr ⟨st, by simp only [initUDP, hh, Bool.false_eq_true, if_false],
      fun h => absurd h hh⟩

/-- Port validation by `init`, apart from the panic of `fileExists`: with no transport
enabled `init` returns an error; with some transport enabled, HTTPS disabled, no content
file and every enabled port valid it returns nil; and in an operating system where
`os.Stat` never fails with an error other than not-exist, it returns an error whenever an
enabled transport has a port outside 0..65535. -/
theorem init_port_validation (os : OS) (c : configuration) :
    (c.http.enabled = false → c.https.enabled = false → c.tcp.enabled = false →
        c.udp.enabled = false → (c.init os).isError = true)
      ∧ (c.https.enabled = false → c.content.file = "" →
          (c.http.enabled = true ∨ c.tcp.enabled = true ∨ c.udp.enabled = true) →
          (c.http.enabled = true → isValidPort c.http.port = true) →
          (c.tcp.enabled = true → isValidPort c.tcp.port = true) →
          (c.udp.enabled = true → isValidPort c.udp.port = true) →
          (c.init os).isNil = true)
      ∧ ((∀ p, statFails os p = false) →
          ((c.http.enabled = true ∧ isValidPort c.http.port = false)
            ∨ (c.https.enabled = true ∧ isValidPort c.https.port = false)
            ∨ (c.tcp.enabled = true ∧ isValidPort c.tcp.port = false)
            ∨ (c.udp.enabled = true ∧ isValidPort c.udp.port = false)) →
          (c.init os).isError = true) := by
  refine ⟨fun h1 h2 h3 h4 => ?_, fun hs hfile hany hv1 hv3 hv4 => ?_, fun hstat hbad => ?_⟩
  · simp [configuration.init, initAnyEnabled, h1, h2, h3, h4, InitStep.andThen,
      InitStep.finish, InitRun.isError]
  · have hany' : initAnyEnabled { c := c, calls := [] } = .next { c := c, calls := [] } := by
      rcases hany with h | h | h <;> simp [initAnyEnabled, h]
    rcases initHTTP_total { c := c, calls := [] } with ⟨e, h2⟩ | ⟨st2, h2, f2s, f2t, f2u, _⟩
    · exfalso
      by_cases hh : c.http.enabled = true
      · simp [initHTTP, hh, hv1 hh] at h2
      · simp [initHTTP, hh] at h2
    · have h3 : initHTTPS os st2 = .next st2 := by
        simp [initHTTPS, f2s, hs]
      rcases initTCP_total st2 with ⟨e, h4⟩ | ⟨st4, h4, f4u, _⟩
      · exfalso
        by_cases hh : c.tcp.enabled = true
        · simp [initTCP, f2t, hh, hv3 hh] at h4
        · simp [initTCP, f2t, hh] at h4
      · rcases initUDP_total st4 with ⟨e, h5⟩ | ⟨st5, h5, _⟩
        · exfalso
          by_cases hh : c.udp.enabled = true
          · simp [initUDP, f4u, f2u, hh, hv4 hh] at h5
          · simp [initUDP, f4u, f2u, hh] at h5
        · have hfile5 : st5.c.content.file = "" := by
            rw [(initUDP_next _ _ h5).1, (initTCP_next _ _ h4).1, (initHTTP_next _ _ h2).1]
            exact hfile
          have h6 := initContentFile_none os st5 hfile5
          have h7 : ∃ st7, initContentType st5 = .next st7 := by
            simp only [initContentType]
            split <;> exact ⟨_, rfl⟩
          obtain ⟨st7, h7⟩ := h7
          simp [configuration.init, hany', h2, h3, h4, h5, h6, h7, InitStep.andThen,
            InitStep.finish, InitRun.isNil]
  · have hany' : initAnyEnabled { c := c, calls := [] } = .next { c := c, calls := [] } := by
      rcases hbad with h | h | h | h <;> simp [initAnyEnabled, h.1]
    rcases initHTTP_total { c := c, calls := [] } with ⟨e, h2⟩ | ⟨st2, h2, f2s, f2t, f2u, v2⟩
    · simp [configuration.init, hany', h2, InitStep.andThen, InitStep.finish, InitRun.isError]
    · rcases initHTTPS_total os st2 hstat with ⟨st3, e, h3⟩ | ⟨st3, h3, f3t, f3u, v3⟩
      · simp [configuration.init, hany', h2, h3, InitStep.andThen, InitStep.finish,
          InitRun.isError]
      · rcases initTCP_total st3 with ⟨e, h4⟩ | ⟨st4, h4, f4u, v4⟩
        · simp [configuration.init, hany', h2, h3, h4, InitStep.andThen, InitStep.finish,
            InitRun.isError]
        · rcases initUDP_total st4 with ⟨e, h5⟩ | ⟨st5, h5, v5⟩
          · simp [configuration.init, hany', h2, h3, h4, h5, InitStep.andThen,
              InitStep.finish, InitRun.isError]
          · exfalso
            rw [f2s] at v3
            rw [f3t, f2t] at v4
            rw [f4u, f3u, f2u] at v5
            rcases hbad with h | h | h | h
            · have := v2 h.1; rw [h.2] at this; exact Bool.noConfusion this
            · have := v3 h.1; rw [h.2] at this; exact Bool.noConfusion this
            · have := v4 h.1; rw [h.2] at this; exact Bool.noConfusion this
            · have := v5 h.1; rw [h.2] at this; exact Bool.noConfusion this

/-! ## `fileExists` and the panics of `init` -/

/-- `fileExists` panics exactly when `os.Stat` fails with an error other than
not-exist. -/
theorem fileExists_panics_iff (os : OS) (p : String) :
    (∃ msg, fileExists os.stat p = Go.panic msg) ↔ statFails os p = true := by
  unfold fileExists statFails
  cases hs : os.stat p with
  | found info => simp [StatRet.IsNotExist]
  | failed e => cases e <;> simp [StatRet.IsNotExist]

theorem andThen_isPanic (s : InitStep) (f : InitState → InitStep) (hs : s.isPanic = false)
    (hf : ∀ st, (f st).isPanic = false) : (s.andThen f).isPanic = false := by
  cases s with
  | next st => exact hf st
  | returnErr st e => rfl
  | panicked st m => exact absurd hs (by simp [InitStep.isPanic])

theorem finish_isPanic (s : InitStep) : s.finish.isPanic = s.isPanic := by
  cases s <;> rfl

theorem initContentFile_isPanic (os : OS) (st : InitState)
    (hstat : ∀ p, statFails os p = false) : (initContentFile os st).isPanic = false := by
  simp only [initContentFile, fileExists_of_not_fails os _ (hstat _)]
  split
  · split
    · rfl
    · split <;> rfl
  · rfl

theorem initHTTPS_isPanic (os : OS) (st : InitState) (hstat : ∀ p, statFails os p = false) :
    (initHTTPS os st).isPanic = false := by
  rcases initHTTPS_total os st hstat with ⟨st', e, h⟩ | ⟨st', h, _⟩ <;> rw [h] <;> rfl

/-- In an operating system where `os.Stat` never fails with an error other than
not-exist, `init` does not panic: it returns nil or an error. -/
theorem init_returns_when_stat_answers (os : OS) (c : configuration)
    (hstat : ∀ p, statFails os p = false) :
    (c.init os).isPanic = false ∧ ((c.init os).isNil = true ∨ (c.init os).isError = true) := by
  have h1 : (initAnyEnabled { c := c, calls := [] }).isPanic = false := by
    simp only [initAnyEnabled]
    split <;> rfl
  have h2 : ∀ st, (initHTTP st).isPanic = false := by
    intro st
    rcases initHTTP_total st with ⟨e, h⟩ | ⟨st', h, _⟩ <;> rw [h] <;> rfl
  have h4 : ∀ st, (initTCP st).isPanic = false := by
    intro st
    rcases initTCP_total st with ⟨e, h⟩ | ⟨st', h, _⟩ <;> rw [h] <;> rfl
  have h5 : ∀ st, (initUDP st).isPanic = false := by
    intro st
    rcases initUDP_total st with ⟨e, h⟩ | ⟨st', h, _⟩ <;> rw [h] <;> rfl
  have h7 : ∀ st, (initContentType st).isPanic = false := by
    intro st
    simp only [initContentType]
    split <;> rfl
  have hp : (c.init os).isPanic = false := by
    rw [configuration.init, finish_isPanic]
    exact andThen_isPanic _ _ (andThen_isPanic _ _ (andThen_isPanic _ _ (andThen_isPanic _ _
      (andThen_isPanic _ _ (andThen_isPanic _ _ h1 h2)
        (fun st => initHTTPS_isPanic os st hstat)) h4) h5)
      (fun st => initContentFile_isPanic os st hstat)) h7
  refine ⟨hp, ?_⟩
  cases hr : c.init os with
  | returnedNil st => exact Or.inl rfl
  | returnedErr st e => exact Or.inr rfl
  | panicked st m => rw [hr] at hp; exact absurd hp (by simp [InitRun.isPanic])

/-- C11 (the code at the failing input): `os.Stat` fails with "permission denied", which
is not a not-exist error, and returns no file information.  `fileExists` does not return
a boolean: it calls `IsDir` on the missing file information and panics.  Consequently
`init` panics, returning neither nil nor an error, for such a content-file path, for
such a key path and for such a certificate path. -/
theorem fileExists_panics_on_stat_failure :
    deniedOS.stat "/root/secret/body.txt"
        = StatRet.failed (StatError.failure "stat /root/secret/body.txt: permission denied")
      ∧ fileExists deniedOS.stat "/root/secret/body.txt"
        = Go.panic "runtime error: invalid memory address or nil pointer dereference"
      ∧ (contentFileConfig.init deniedOS).isPanic = true
      ∧ (contentFileConfig.init deniedOS).isNil = false
      ∧ (contentFileConfig.init deniedOS).isError = false
      ∧ (keyDeniedConfig.init deniedOS).isPanic = true
      ∧ (certOnlyConfig.init notDirOS).isPanic = true := by
  refine ⟨?_, ?_, ?_, ?_, ?_, ?_, ?_⟩ <;> decide

end EchoServer
